import Mathlib

/-!
# SocketCAN demo programs: a shallow embedding

Source files embedded here:

* `socketcan-raw-demo.c`   (raw echo demo, version 1.0.0)
* `socketcan-bcm-demo.cpp` (broadcast-manager echo demo)
* `socketcan-cyclic-demo.c` (broadcast-manager cyclic transmit demo)
* `socketcan-raw-demo.cpp` (raw receive service, version 2.0.0)

Conventions.

* C unsigned integers are `Nat`; where wrap-around matters it is written out
  as `% 256` (unsigned char) or `% 2 ^ 32` (canid_t).
* A system call is an oracle outcome `Sys`: either a non-negative return
  value, or `-1` together with the `errno` it leaves behind.
* Each `main` is embedded from the statement that registers the signal
  handlers onwards (command-line parsing is not embedded).  It is a function
  from the outcomes of the system calls it issues to the list of observable
  events it produces and its return value.
* `perror`, `fputs`, `printf`, `puts` and stream output are events. A call
  of `perror` may change `errno` (glibc leaves `EINVAL` when the error stream
  cannot be written): what the `perror` that precedes a `return errno` does
  to `errno` is an outcome `Perror` supplied by the environment. A system
  call that succeeds leaves `errno` as it was.
-/

namespace SocketCan

/-! ## Constants of the Linux headers used by the demos -/

/-- Size of `struct can_frame` (linux/can.h: `CAN_MTU`). -/
def CAN_MTU : Nat := 16
/-- Size of `struct canfd_frame` (linux/can.h: `CANFD_MTU`). -/
def CANFD_MTU : Nat := 72
/-- Mask of a standard (11 bit) identifier (linux/can.h). -/
def CAN_SFF_MASK : Nat := 0x7FF

/-- Opcodes of linux/can/bcm.h, in the order of the enum, starting at 1. -/
def TX_SETUP : Nat := 1
def TX_DELETE : Nat := 2
def TX_READ : Nat := 3
def TX_SEND : Nat := 4
def RX_SETUP : Nat := 5
def RX_DELETE : Nat := 6
def RX_READ : Nat := 7
def TX_STATUS : Nat := 8
def TX_EXPIRED : Nat := 9
def RX_STATUS : Nat := 10
def RX_TIMEOUT : Nat := 11
def RX_CHANGED : Nat := 12

/-- Flag bits of linux/can/bcm.h. -/
def SETTIMER : Nat := 0x0001
def STARTTIMER : Nat := 0x0002

/-- Values of errno.h on Linux. -/
def EINTR : Nat := 4
def EAGAIN : Nat := 11

/-- Signal numbers of signal.h on Linux. -/
def SIGHUP : Nat := 1
def SIGINT : Nat := 2
def SIGQUIT : Nat := 3
def SIGTERM : Nat := 15
def SIGCHLD : Nat := 17

/-- File status flag of fcntl.h on Linux. -/
def O_NONBLOCK : Nat := 0x800

def EXIT_SUCCESS : Int := 0

/-! ## Data model -/

/-- The `struct can_frame` of linux/can.h: identifier with flag bits (32 bit),
data length code (8 bit) and the 8 payload bytes. -/
structure can_frame where
  can_id : Nat
  can_dlc : Nat
  data : List Nat
  deriving DecidableEq, Repr

/-- The `struct canfd_frame` of linux/can.h, with its 64 payload bytes. -/
structure canfd_frame where
  can_id : Nat
  len : Nat
  flags : Nat
  data : List Nat
  deriving DecidableEq, Repr

/-- The `struct bcm_timeval` of linux/can/bcm.h. -/
structure bcm_timeval where
  tv_sec : Int
  tv_usec : Int
  deriving DecidableEq, Repr

/-- The `struct bcm_msg_head` of linux/can/bcm.h (without the trailing
flexible frame array, which `can_msg` carries). -/
structure bcm_msg_head where
  opcode : Nat
  flags : Nat
  count : Nat
  ival1 : bcm_timeval
  ival2 : bcm_timeval
  can_id : Nat
  nframes : Nat
  deriving DecidableEq, Repr

/-- The value of `sizeof(struct can_msg)` for a header of `mhsiz` bytes and an
array of `nframes` frames: the frame array starts right after the header
(the header is 8-byte aligned and ends in the flexible frame array). -/
def sizeofCanMsg (mhsiz nframes : Nat) : Nat := mhsiz + nframes * CAN_MTU

/-- The number of whole CAN frames that follow the header in a write of
`len` bytes. -/
def framesInBytes (mhsiz len : Nat) : Nat := (len - mhsiz) / CAN_MTU

/-! ## System call outcomes and observable events -/

/-- Outcome of a system call: success with a non-negative return value, or
failure, which returns `-1` and stores `e` in `errno`. -/
inductive Sys where
  | ok (v : Nat)
  | fail (e : Nat)
  deriving DecidableEq, Repr

/-- The value the call returns to the program. -/
def Sys.ret : Sys → Int
  | .ok v => (v : Int)
  | .fail _ => -1

/-- The value of `errno` after the call, given its value before. -/
def Sys.errnoAfter : Sys → Nat → Nat
  | .ok _, old => old
  | .fail e, _ => e

/-- What a call of `perror` does to `errno`: it leaves it as it was, or stores
a value of its own. -/
inductive Perror where
  | keeps
  | sets (e : Nat)
  deriving DecidableEq, Repr

/-- The value of `errno` after the call of `perror`, given its value before. -/
def Perror.errnoAfter : Perror → Nat → Nat
  | .keeps, old => old
  | .sets e, _ => e

/-- Outcome of a `read`: the byte count returned (`-1` on failure), the value
of `errno` after the call, and the contents of the buffer after the call. -/
structure ReadRes (β : Type) where
  nbytes : Int
  errno : Nat
  buf : β
  deriving DecidableEq, Repr

/-- Outcome of a `write`: the byte count returned (`-1` on failure) and the
value of `errno` after the call. -/
structure WriteRes where
  nbytes : Int
  errno : Nat
  deriving DecidableEq, Repr

/-- Diagnostics and log lines the programs print, by the text they carry. -/
inductive Msg where
  | perrorProg | perrorSocket | perrorIoctl | perrorBind | perrorConnect
  | perrorGetfl | perrorSetfl | perrorRxSetup | perrorTxSetup | perrorTxSend
  | perrorRead | perrorWrite | perrorClose
  | perrorFilter | perrorCanFd
  | readIncomplete | writeIncomplete
  | registered | goodbye | started | bye
  | rpm (v : Nat) | got110 | got320 | unexpectedId (id : Nat)
  deriving DecidableEq, Repr

/-- Observable events of a run, in program order. -/
inductive Ev where
  | signal (signum : Nat)
  | socket
  | setsockoptFilter (filters : List (Nat × Nat))
  | setsockoptFdFrames (enable : Nat)
  | ioctl
  | bind
  | connect
  | fcntlGetfl
  | fcntlSetfl (flags : Nat)
  | read
  | writeFrame (frame : can_frame) (len : Nat)
  | writeMsg (head : bcm_msg_head) (frames : List can_frame) (len : Nat)
  | close
  | usleep (us : Nat)
  | sleepMs (ms : Nat)
  | rx (frame : can_frame)
  | tx (frame : can_frame)
  | processFrame (frame : canfd_frame)
  | stdout (m : Msg)
  | stderr (m : Msg)
  deriving DecidableEq, Repr

/-! ## The byte loops -/

/-- The loop `for (i = 0; i < dlc; ++i) data[i] += 1;` of the two echo demos,
started at index `i` with `n` iterations left. `data[i]` is an `unsigned
char`, so the addition wraps at 256. -/
def incLoop : Nat → Nat → List Nat → List Nat
  | 0, _, data => data
  | n + 1, i, data => incLoop n (i + 1) (data.set i ((data.getD i 0 + 1) % 256))

/-- The whole loop: `dlc` iterations from index 0. -/
def incrementBytes (dlc : Nat) (data : List Nat) : List Nat :=
  incLoop dlc 0 data

/-- The libc `memset(p, c, n)` on a byte array, as the loop storing
`(unsigned char)c` at index `k`, with `n` bytes left. -/
def memsetLoop : Nat → Nat → Nat → List Nat → List Nat
  | 0, _, _, data => data
  | n + 1, k, c, data => memsetLoop n (k + 1) c (data.set k (c % 256))

/-- The call `memset(data, c, n)`. -/
def memset (data : List Nat) (c n : Nat) : List Nat :=
  memsetLoop n 0 c data

/-! ## The shutdown flag -/

/-- The handler `onsig` / `onSignal`: `sigval = (sig_atomic_t)val;`. It
overwrites the flag with the signal number. -/
def onsig (val : Nat) (_sigval : Int) : Int := (val : Int)

/-- The handler run once for each signal of `sigs`, in order of delivery. -/
def deliver (sigs : List Nat) (sigval : Int) : Int :=
  sigs.foldl (fun s v => onsig v s) sigval

/-- Result of a run of `main`: the events in program order, the return value
(`none` when the supplied loop iterations ran out while the loop was still
running) and the value of the shutdown flag at that point. -/
structure Run where
  trace : List Ev
  ret : Option Int
  sigval : Int
  deriving DecidableEq, Repr

/-- The frames written with `write(s, &frame, sizeof(frame))`, with the length
passed to `write`. -/
def frameWrites : List Ev → List (can_frame × Nat)
  | [] => []
  | Ev.writeFrame f n :: rest => (f, n) :: frameWrites rest
  | _ :: rest => frameWrites rest

/-- The broadcast-manager messages written with `write(s, &msg, sizeof(msg))`:
the header, the frame array of the struct, and the length passed to `write`. -/
def msgWrites : List Ev → List (bcm_msg_head × List can_frame × Nat)
  | [] => []
  | Ev.writeMsg h fs n :: rest => (h, fs, n) :: msgWrites rest
  | _ :: rest => msgWrites rest

/-- Says whether the event is a diagnostic on the standard error stream. -/
def Ev.isStderr : Ev → Bool
  | Ev.stderr _ => true
  | _ => false

/-- The statement `signal(SIGINT, onsig) == SIG_ERR || signal(SIGTERM, onsig)
== SIG_ERR || signal(SIGCHLD, SIG_IGN) == SIG_ERR` of the three C demos, with
the short-circuit evaluation of `||`: the calls issued, whether the condition
holds, and `errno` afterwards. -/
def registerSignals (rInt rTerm rChld : Sys) (errno : Nat) : List Ev × Bool × Nat :=
  if rInt.ret = -1 then
    ([Ev.signal SIGINT], true, rInt.errnoAfter errno)
  else if rTerm.ret = -1 then
    ([Ev.signal SIGINT, Ev.signal SIGTERM], true, rTerm.errnoAfter errno)
  else if rChld.ret = -1 then
    ([Ev.signal SIGINT, Ev.signal SIGTERM, Ev.signal SIGCHLD], true, rChld.errnoAfter errno)
  else
    ([Ev.signal SIGINT, Ev.signal SIGTERM, Ev.signal SIGCHLD], false, errno)

/-- The tail of the three C demos after the main loop: `puts("\nGoodbye!")`,
then `if (close(s) < 0) { perror(...); return errno; } return EXIT_SUCCESS;`. -/
def closeAndExit (closeR : Sys) (perrorR : Perror) (errno : Nat) : List Ev × Int :=
  if closeR.ret < 0 then
    ([Ev.stdout Msg.goodbye, Ev.close, Ev.stderr Msg.perrorClose],
      ((perrorR.errnoAfter (closeR.errnoAfter errno) : Nat) : Int))
  else
    ([Ev.stdout Msg.goodbye, Ev.close], EXIT_SUCCESS)

/-! ## socketcan-raw-demo.c: the raw echo demo -/

namespace RawEcho

def MSGID : Nat := 0x0CC
def DELAY : Nat := 10000

/-- Inputs of one iteration of the main loop: the outcome of `read`, the
outcome of `write` (consulted only when a write is issued), and the
signals whose handler runs during the iteration. -/
structure Iter where
  readR : ReadRes can_frame
  writeR : WriteRes
  sigs : List Nat
  deriving DecidableEq, Repr

/-- The frame handed to `write` for a fully read frame: `frame.can_id = MSGID`
followed by the increment loop over the first `dlc` bytes, where `dlc` is the
received `frame.can_dlc`. -/
def echoFrame (frame : can_frame) : can_frame :=
  let dlc := frame.can_dlc
  let frame1 := { frame with can_id := MSGID }
  { frame1 with data := incrementBytes dlc frame1.data }

/-- One iteration of the body of `while (0 == sigval)`. -/
def body (it : Iter) : List Ev :=
  let nbytes := it.readR.nbytes
  if nbytes < 0 then
    if it.readR.errno ≠ EAGAIN then
      [Ev.read, Ev.stderr Msg.perrorRead, Ev.usleep DELAY]
    else
      [Ev.read, Ev.usleep DELAY]
  else if nbytes < (CAN_MTU : Int) then
    [Ev.read, Ev.stderr Msg.readIncomplete, Ev.usleep DELAY]
  else
    let frame := it.readR.buf
    let out := echoFrame frame
    let wbytes := it.writeR.nbytes
    if wbytes < 0 then
      [Ev.read, Ev.rx frame, Ev.writeFrame out CAN_MTU, Ev.stderr Msg.perrorWrite]
    else if wbytes < (CAN_MTU : Int) then
      [Ev.read, Ev.rx frame, Ev.writeFrame out CAN_MTU, Ev.stderr Msg.writeIncomplete]
    else
      [Ev.read, Ev.rx frame, Ev.writeFrame out CAN_MTU, Ev.tx out]

/-- The value of `errno` after one iteration: the one left by `write` when a
write was issued, else the one left by `read`. -/
def errnoAfter (it : Iter) : Nat :=
  if it.readR.nbytes < (CAN_MTU : Int) then it.readR.errno else it.writeR.errno

/-- The loop `while (0 == sigval) { ... }` followed by the rest of `main`,
run on the supplied iterations; `errno` is the value of `errno` when the loop
condition is tested. -/
def loop (closeR : Sys) (perrorR : Perror) : Nat → Int → List Iter → Run
  | errno, sigval, [] =>
    if 0 = sigval then
      { trace := [], ret := none, sigval := sigval }
    else
      let fin := closeAndExit closeR perrorR errno
      { trace := fin.1, ret := some fin.2, sigval := sigval }
  | errno, sigval, it :: rest =>
    if 0 = sigval then
      let r := loop closeR perrorR (errnoAfter it) (deliver it.sigs sigval) rest
      { r with trace := body it ++ r.trace }
    else
      let fin := closeAndExit closeR perrorR errno
      { trace := fin.1, ret := some fin.2, sigval := sigval }

/-- Outcomes of everything `main` asks of its environment. `perrorR` is what
the `perror` that precedes a `return errno` does to `errno`. `sigsSetup` are
the signals whose handler runs after the handlers are registered and before
the statement `sigval = 0`; `sigsReady` those whose handler runs after that
statement and before the first test of the loop condition. -/
structure Env where
  errno0 : Nat
  signalInt : Sys
  signalTerm : Sys
  signalChld : Sys
  socketR : Sys
  ioctlR : Sys
  bindR : Sys
  getflR : Sys
  setflR : Sys
  closeR : Sys
  perrorR : Perror
  sigsSetup : List Nat
  sigsReady : List Nat
  iters : List Iter
  deriving DecidableEq, Repr

/-- The function `main` from "Register signal handlers" onwards. The static
`sigval` starts at 0. -/
def main (env : Env) : Run :=
  let sigval0 : Int := 0
  let reg := registerSignals env.signalInt env.signalTerm env.signalChld env.errno0
  if reg.2.1 then
    { trace := reg.1 ++ [Ev.stderr Msg.perrorProg],
      ret := some (env.perrorR.errnoAfter reg.2.2 : Nat), sigval := sigval0 }
  else
    let sigval1 := deliver env.sigsSetup sigval0
    let t1 := reg.1 ++ [Ev.socket]
    if env.socketR.ret < 0 then
      { trace := t1 ++ [Ev.stderr Msg.perrorSocket],
        ret := some (env.perrorR.errnoAfter (env.socketR.errnoAfter reg.2.2) : Nat),
        sigval := sigval1 }
    else
      let t2 := t1 ++ [Ev.ioctl]
      if env.ioctlR.ret < 0 then
        { trace := t2 ++ [Ev.stderr Msg.perrorIoctl],
          ret := some (env.perrorR.errnoAfter (env.ioctlR.errnoAfter reg.2.2) : Nat),
          sigval := sigval1 }
      else
        let t3 := t2 ++ [Ev.bind]
        if env.bindR.ret < 0 then
          { trace := t3 ++ [Ev.stderr Msg.perrorBind],
            ret := some (env.perrorR.errnoAfter (env.bindR.errnoAfter reg.2.2) : Nat),
            sigval := sigval1 }
        else
          let t4 := t3 ++ [Ev.fcntlGetfl]
          let flags := env.getflR.ret
          if flags < 0 then
            { trace := t4 ++ [Ev.stderr Msg.perrorGetfl],
              ret := some (env.perrorR.errnoAfter (env.getflR.errnoAfter reg.2.2) : Nat),
              sigval := sigval1 }
          else
            let t5 := t4 ++ [Ev.fcntlSetfl (flags.toNat ||| O_NONBLOCK)]
            if env.setflR.ret < 0 then
              { trace := t5 ++ [Ev.stderr Msg.perrorSetfl],
                ret := some (env.perrorR.errnoAfter (env.setflR.errnoAfter reg.2.2) : Nat),
                sigval := sigval1 }
            else
              let sigval2 : Int := 0
              let sigval3 := deliver env.sigsReady sigval2
              let r := loop env.closeR env.perrorR reg.2.2 sigval3 env.iters
              { r with trace := t5 ++ r.trace }

end RawEcho

/-! ## socketcan-bcm-demo.cpp: the broadcast-manager echo demo -/

namespace BcmEcho

def MSGID : Nat := 0x0BC
def NFRAMES : Nat := 1
def DELAY : Nat := 10000

/-- The local `struct can_msg`: a header and an array of `NFRAMES` = 1 frame. -/
structure can_msg where
  msg_head : bcm_msg_head
  frame : can_frame
  deriving DecidableEq, Repr

/-- Inputs of one iteration of the main loop. -/
structure Iter where
  readR : ReadRes can_msg
  writeR : WriteRes
  sigs : List Nat
  deriving DecidableEq, Repr

/-- The message `main` writes first: the four assignments to `msg.msg_head`
on the local, uninitialised `msg`. -/
def rxSetupMsg (msg0 : can_msg) : can_msg :=
  { msg0 with msg_head :=
      { msg0.msg_head with opcode := RX_SETUP, can_id := 0x123, flags := 0, nframes := 0 } }

/-- The message handed to `write` for a fully read message: the frame gets
`MSGID` and incremented bytes, the header becomes a `TX_SEND`. -/
def echoMsg (msg : can_msg) : can_msg :=
  let frame := msg.frame
  let dlc := frame.can_dlc
  let frame1 := { frame with can_id := MSGID }
  let frame2 := { frame1 with data := incrementBytes dlc frame1.data }
  { msg_head := { msg.msg_head with opcode := TX_SEND, can_id := 0, flags := 0, nframes := 1 },
    frame := frame2 }

/-- One iteration of the body of `while (0 == sigval)`; `mhsiz` is
`sizeof(struct bcm_msg_head)`. -/
def body (mhsiz : Nat) (it : Iter) : List Ev :=
  let size := sizeofCanMsg mhsiz NFRAMES
  let nbytes := it.readR.nbytes
  if nbytes < 0 then
    if it.readR.errno ≠ EAGAIN then
      [Ev.read, Ev.stderr Msg.perrorRead, Ev.usleep DELAY]
    else
      [Ev.read, Ev.usleep DELAY]
  else if nbytes < (size : Int) then
    [Ev.read, Ev.stderr Msg.readIncomplete, Ev.usleep DELAY]
  else
    let msg := it.readR.buf
    let out := echoMsg msg
    let wbytes := it.writeR.nbytes
    if wbytes < 0 then
      [Ev.read, Ev.rx msg.frame, Ev.writeMsg out.msg_head [out.frame] size,
        Ev.stderr Msg.perrorTxSend]
    else if wbytes < (size : Int) then
      [Ev.read, Ev.rx msg.frame, Ev.writeMsg out.msg_head [out.frame] size,
        Ev.stderr Msg.writeIncomplete]
    else
      [Ev.read, Ev.rx msg.frame, Ev.writeMsg out.msg_head [out.frame] size, Ev.tx out.frame]

/-- The value of `errno` after one iteration. -/
def errnoAfter (mhsiz : Nat) (it : Iter) : Nat :=
  if it.readR.nbytes < (sizeofCanMsg mhsiz NFRAMES : Int) then it.readR.errno
  else it.writeR.errno

/-- The loop `while (0 == sigval) { ... }` followed by the rest of `main`. -/
def loop (mhsiz : Nat) (closeR : Sys) (perrorR : Perror) : Nat → Int → List Iter → Run
  | errno, sigval, [] =>
    if 0 = sigval then
      { trace := [], ret := none, sigval := sigval }
    else
      let fin := closeAndExit closeR perrorR errno
      { trace := fin.1, ret := some fin.2, sigval := sigval }
  | errno, sigval, it :: rest =>
    if 0 = sigval then
      let r := loop mhsiz closeR perrorR (errnoAfter mhsiz it) (deliver it.sigs sigval) rest
      { r with trace := body mhsiz it ++ r.trace }
    else
      let fin := closeAndExit closeR perrorR errno
      { trace := fin.1, ret := some fin.2, sigval := sigval }

/-- Outcomes of everything `main` asks of its environment; `msg0` is the
content of the uninitialised local `msg`. `sigsSetup` and `sigsReady` are as
in the raw echo demo; the write of the `RX_SETUP` falls after `sigval = 0`. -/
structure Env where
  errno0 : Nat
  msg0 : can_msg
  signalInt : Sys
  signalTerm : Sys
  signalChld : Sys
  socketR : Sys
  ioctlR : Sys
  connectR : Sys
  getflR : Sys
  setflR : Sys
  setupWriteR : WriteRes
  closeR : Sys
  perrorR : Perror
  sigsSetup : List Nat
  sigsReady : List Nat
  iters : List Iter
  deriving DecidableEq, Repr

/-- The function `main` from "Register signal handlers" onwards. -/
def main (mhsiz : Nat) (env : Env) : Run :=
  let sigval0 : Int := 0
  let reg := registerSignals env.signalInt env.signalTerm env.signalChld env.errno0
  if reg.2.1 then
    { trace := reg.1 ++ [Ev.stderr Msg.perrorProg],
      ret := some (env.perrorR.errnoAfter reg.2.2 : Nat), sigval := sigval0 }
  else
    let sigval1 := deliver env.sigsSetup sigval0
    let t1 := reg.1 ++ [Ev.socket]
    if env.socketR.ret < 0 then
      { trace := t1 ++ [Ev.stderr Msg.perrorSocket],
        ret := some (env.perrorR.errnoAfter (env.socketR.errnoAfter reg.2.2) : Nat),
        sigval := sigval1 }
    else
      let t2 := t1 ++ [Ev.ioctl]
      if env.ioctlR.ret < 0 then
        { trace := t2 ++ [Ev.stderr Msg.perrorIoctl],
          ret := some (env.perrorR.errnoAfter (env.ioctlR.errnoAfter reg.2.2) : Nat),
          sigval := sigval1 }
      else
        let t3 := t2 ++ [Ev.connect]
        if env.connectR.ret < 0 then
          { trace := t3 ++ [Ev.stderr Msg.perrorConnect],
            ret := some (env.perrorR.errnoAfter (env.connectR.errnoAfter reg.2.2) : Nat),
            sigval := sigval1 }
        else
          let t4 := t3 ++ [Ev.fcntlGetfl]
          let flags := env.getflR.ret
          if flags < 0 then
            { trace := t4 ++ [Ev.stderr Msg.perrorGetfl],
              ret := some (env.perrorR.errnoAfter (env.getflR.errnoAfter reg.2.2) : Nat),
              sigval := sigval1 }
          else
            let t5 := t4 ++ [Ev.fcntlSetfl (flags.toNat ||| O_NONBLOCK)]
            if env.setflR.ret < 0 then
              { trace := t5 ++ [Ev.stderr Msg.perrorSetfl],
                ret := some (env.perrorR.errnoAfter (env.setflR.errnoAfter reg.2.2) : Nat),
                sigval := sigval1 }
            else
              let sigval2 : Int := 0
              let msg := rxSetupMsg env.msg0
              let t6 := t5 ++ [Ev.writeMsg msg.msg_head [msg.frame] (sizeofCanMsg mhsiz NFRAMES)]
              let sigval3 := deliver env.sigsReady sigval2
              if env.setupWriteR.nbytes < 0 then
                { trace := t6 ++ [Ev.stderr Msg.perrorRxSetup],
                  ret := some (env.perrorR.errnoAfter env.setupWriteR.errno : Nat),
                  sigval := sigval3 }
              else
                let r := loop mhsiz env.closeR env.perrorR env.setupWriteR.errno sigval3 env.iters
                { r with trace := t6 ++ r.trace }

end BcmEcho

/-! ## socketcan-cyclic-demo.c: the cyclic transmit demo -/

namespace Cyclic

def MSGID : Nat := 0x0C0
def MSGLEN : Nat := 3
def NFRAMES : Nat := 4
def DELAY : Nat := 10000

/-- The local `struct can_msg`: a header and an array of `NFRAMES` = 4 frames
(`frame.length = 4`). -/
structure can_msg where
  msg_head : bcm_msg_head
  frame : List can_frame
  deriving DecidableEq, Repr

/-- One iteration of `for (i = 0; i < NFRAMES; ++i)`: the three statements on
`frame = msg.frame + i`; the bytes after the first `MSGLEN` are left as they
were. -/
def fillFrame (i : Nat) (frame : can_frame) : can_frame :=
  { can_id := MSGID + i, can_dlc := MSGLEN, data := memset frame.data i MSGLEN }

/-- The loop creating the example messages, at index `i` with `n` iterations
left. -/
def fillLoop : Nat → Nat → List can_frame → List can_frame
  | 0, _, frames => frames
  | n + 1, i, frames =>
    fillLoop n (i + 1) (frames.set i (fillFrame i (frames.getD i ⟨0, 0, []⟩)))

/-- The message `main` builds on the local, uninitialised `msg`: the
assignments to the header (`ival1` is not assigned) and the frame loop. -/
def txSetupMsg (msg0 : can_msg) : can_msg :=
  { msg_head :=
      { msg0.msg_head with
        opcode := TX_SETUP, can_id := 0, flags := SETTIMER ||| STARTTIMER,
        nframes := NFRAMES, count := 0, ival2 := { tv_sec := 1, tv_usec := 200000 } },
    frame := fillLoop NFRAMES 0 msg0.frame }

/-- The loop `while (0 == sigval) usleep(DELAY);` followed by the rest of
`main`; each element of the list holds the signals whose handler runs during
one iteration. -/
def loop (closeR : Sys) (perrorR : Perror) (errno : Nat) : Int → List (List Nat) → Run
  | sigval, [] =>
    if 0 = sigval then
      { trace := [], ret := none, sigval := sigval }
    else
      let fin := closeAndExit closeR perrorR errno
      { trace := fin.1, ret := some fin.2, sigval := sigval }
  | sigval, sigs :: rest =>
    if 0 = sigval then
      let r := loop closeR perrorR errno (deliver sigs sigval) rest
      { r with trace := Ev.usleep DELAY :: r.trace }
    else
      let fin := closeAndExit closeR perrorR errno
      { trace := fin.1, ret := some fin.2, sigval := sigval }

/-- Outcomes of everything `main` asks of its environment. -/
structure Env where
  errno0 : Nat
  msg0 : can_msg
  signalInt : Sys
  signalTerm : Sys
  signalChld : Sys
  socketR : Sys
  ioctlR : Sys
  connectR : Sys
  setupWriteR : WriteRes
  closeR : Sys
  perrorR : Perror
  sigsSetup : List Nat
  sigsReady : List Nat
  iters : List (List Nat)
  deriving DecidableEq, Repr

/-- The function `main` from "Register signal handlers" onwards. -/
def main (mhsiz : Nat) (env : Env) : Run :=
  let sigval0 : Int := 0
  let reg := registerSignals env.signalInt env.signalTerm env.signalChld env.errno0
  if reg.2.1 then
    { trace := reg.1 ++ [Ev.stderr Msg.perrorProg],
      ret := some (env.perrorR.errnoAfter reg.2.2 : Nat), sigval := sigval0 }
  else
    let sigval1 := deliver env.sigsSetup sigval0
    let t1 := reg.1 ++ [Ev.socket]
    if env.socketR.ret < 0 then
      { trace := t1 ++ [Ev.stderr Msg.perrorSocket],
        ret := some (env.perrorR.errnoAfter (env.socketR.errnoAfter reg.2.2) : Nat),
        sigval := sigval1 }
    else
      let t2 := t1 ++ [Ev.ioctl]
      if env.ioctlR.ret < 0 then
        { trace := t2 ++ [Ev.stderr Msg.perrorIoctl],
          ret := some (env.perrorR.errnoAfter (env.ioctlR.errnoAfter reg.2.2) : Nat),
          sigval := sigval1 }
      else
        let t3 := t2 ++ [Ev.connect]
        if env.connectR.ret < 0 then
          { trace := t3 ++ [Ev.stderr Msg.perrorConnect],
            ret := some (env.perrorR.errnoAfter (env.connectR.errnoAfter reg.2.2) : Nat),
            sigval := sigval1 }
        else
          let sigval2 : Int := 0
          let msg := txSetupMsg env.msg0
          let t4 := t3 ++ [Ev.writeMsg msg.msg_head msg.frame (sizeofCanMsg mhsiz NFRAMES)]
          let sigval3 := deliver env.sigsReady sigval2
          if env.setupWriteR.nbytes < 0 then
            { trace := t4 ++ [Ev.stderr Msg.perrorTxSetup],
              ret := some (env.perrorR.errnoAfter env.setupWriteR.errno : Nat),
              sigval := sigval3 }
          else
            let r := loop env.closeR env.perrorR env.setupWriteR.errno sigval3 env.iters
            { r with trace := t4 ++ [Ev.stdout Msg.registered] ++ r.trace }

end Cyclic

/-! ## socketcan-raw-demo.cpp: the raw receive service -/

namespace RawService

/-- The native 16 bit load `*(std::uint16_t *)(frame.data + 0)` of the bytes
`b0`, `b1` on a little-endian or a big-endian host. -/
def load16 (hostLittleEndian : Bool) (b0 b1 : Nat) : Nat :=
  if hostLittleEndian then b0 % 256 + 256 * (b1 % 256) else 256 * (b0 % 256) + b1 % 256

/-- The function `be16toh` of endian.h: a byte swap on a little-endian host,
the identity on a big-endian one. -/
def be16toh (hostLittleEndian : Bool) (x : Nat) : Nat :=
  if hostLittleEndian then (x % 256) * 256 + (x / 256) % 256 else x % 65536

/-- The function `processFrame`: what it prints. -/
def processFrame (hostLittleEndian : Bool) (frame : canfd_frame) : List Ev :=
  if frame.can_id = 0x0A0 then
    let rpm := be16toh hostLittleEndian
      (load16 hostLittleEndian (frame.data.getD 0 0) (frame.data.getD 1 0))
    [Ev.stdout (Msg.rpm rpm)]
  else if frame.can_id = 0x110 then
    [Ev.stdout Msg.got110]
  else if frame.can_id = 0x320 then
    [Ev.stdout Msg.got320]
  else
    [Ev.stderr (Msg.unexpectedId frame.can_id)]

/-- Inputs of one iteration of the main loop: the outcome of
`read(sockfd, &frame, CANFD_MTU)` and the signals whose handler runs during
the iteration. -/
structure Iter where
  readR : ReadRes canfd_frame
  sigs : List Nat
  deriving DecidableEq, Repr

/-- One iteration of the body of `while (0 == signalValue)`: the `read` and
the `switch (numBytes)`. Every case leads to the loop condition (a `break`
that ends the body, or `continue`); the case `-1` falls through to `default`. -/
def body (hostLittleEndian : Bool) (it : Iter) : List Ev :=
  let numBytes := it.readR.nbytes
  if numBytes = (CAN_MTU : Int) then
    Ev.read :: Ev.processFrame it.readR.buf :: processFrame hostLittleEndian it.readR.buf
  else if numBytes = (CANFD_MTU : Int) then
    [Ev.read]
  else if numBytes = -1 then
    if EINTR = it.readR.errno then
      [Ev.read]
    else
      [Ev.read, Ev.stderr Msg.perrorRead, Ev.sleepMs 100]
  else
    [Ev.read]

/-- The end of `main` after the loop: `close`, then either `perror` and
`return errno`, or the farewell and `return EXIT_SUCCESS`. -/
def cleanup (closeR : Sys) (perrorR : Perror) (errno : Nat) : List Ev × Int :=
  if closeR.ret = -1 then
    ([Ev.close, Ev.stderr Msg.perrorClose],
      ((perrorR.errnoAfter (closeR.errnoAfter errno) : Nat) : Int))
  else
    ([Ev.close, Ev.stdout Msg.bye], EXIT_SUCCESS)

/-- The loop `while (0 == signalValue) { ... }` followed by the cleanup. -/
def loop (hostLittleEndian : Bool) (closeR : Sys) (perrorR : Perror) :
    Nat → Int → List Iter → Run
  | errno, sigval, [] =>
    if 0 = sigval then
      { trace := [], ret := none, sigval := sigval }
    else
      let fin := cleanup closeR perrorR errno
      { trace := fin.1, ret := some fin.2, sigval := sigval }
  | errno, sigval, it :: rest =>
    if 0 = sigval then
      let r := loop hostLittleEndian closeR perrorR it.readR.errno (deliver it.sigs sigval) rest
      { r with trace := body hostLittleEndian it ++ r.trace }
    else
      let fin := cleanup closeR perrorR errno
      { trace := fin.1, ret := some fin.2, sigval := sigval }

/-- The receive filters `main` installs. -/
def filters : List (Nat × Nat) :=
  [(0x0A0, CAN_SFF_MASK), (0x110, CAN_SFF_MASK), (0x320, CAN_SFF_MASK)]

/-- The labels `errSetup:` / `errSocket:` at the end of `main`:
`::close(sockfd);` (its result is ignored) and `return errno;`. `errno` is the
value on arrival at the label, after the `std::perror` of the failing step. -/
def errSetup (closeR : Sys) (errno : Nat) : List Ev × Int :=
  ([Ev.close], ((closeR.errnoAfter errno : Nat) : Int))

/-- Outcomes of everything `main` asks of its environment. `perrorR` is what
the `std::perror` that precedes a `return errno` does to `errno`. `sigsSetup` are
the signals whose handler runs after the first `sigaction` and before the
statement `signalValue = 0`; `sigsReady` those whose handler runs after that
statement and before the first test of the loop condition. -/
structure Env where
  errno0 : Nat
  hostLittleEndian : Bool
  socketR : Sys
  filterR : Sys
  fdFramesR : Sys
  ioctlR : Sys
  bindR : Sys
  closeR : Sys
  perrorR : Perror
  sigsSetup : List Nat
  sigsReady : List Nat
  iters : List Iter
  deriving DecidableEq, Repr

/-- The function `main` from "Register signal handlers" onwards (the results
of the four `sigaction` calls are not looked at). -/
def main (env : Env) : Run :=
  let sigval0 : Int := 0
  let t0 := [Ev.signal SIGINT, Ev.signal SIGTERM, Ev.signal SIGQUIT, Ev.signal SIGHUP]
  let _sigval1 := deliver env.sigsSetup sigval0
  let sigval2 : Int := 0
  let sigval3 := deliver env.sigsReady sigval2
  let errno := env.errno0
  let t1 := t0 ++ [Ev.socket]
  if -1 = env.socketR.ret then
    { trace := t1 ++ [Ev.stderr Msg.perrorSocket],
      ret := some (env.perrorR.errnoAfter (env.socketR.errnoAfter errno) : Nat),
      sigval := sigval3 }
  else
    let t2 := t1 ++ [Ev.setsockoptFilter filters]
    if -1 = env.filterR.ret then
      let fin := errSetup env.closeR (env.perrorR.errnoAfter (env.filterR.errnoAfter errno))
      { trace := t2 ++ [Ev.stderr Msg.perrorFilter] ++ fin.1, ret := some fin.2, sigval := sigval3 }
    else
      let t3 := t2 ++ [Ev.setsockoptFdFrames 1]
      if -1 = env.fdFramesR.ret then
        let fin := errSetup env.closeR (env.perrorR.errnoAfter (env.fdFramesR.errnoAfter errno))
        { trace := t3 ++ [Ev.stderr Msg.perrorCanFd] ++ fin.1, ret := some fin.2,
          sigval := sigval3 }
      else
        let t4 := t3 ++ [Ev.ioctl]
        if env.ioctlR.ret = -1 then
          let fin := errSetup env.closeR (env.perrorR.errnoAfter (env.ioctlR.errnoAfter errno))
          { trace := t4 ++ [Ev.stderr Msg.perrorIoctl] ++ fin.1, ret := some fin.2,
            sigval := sigval3 }
        else
          let t5 := t4 ++ [Ev.bind]
          if -1 = env.bindR.ret then
            let fin := errSetup env.closeR (env.perrorR.errnoAfter (env.bindR.errnoAfter errno))
            { trace := t5 ++ [Ev.stderr Msg.perrorBind] ++ fin.1, ret := some fin.2,
              sigval := sigval3 }
          else
            let r := loop env.hostLittleEndian env.closeR env.perrorR errno sigval3 env.iters
            { r with trace := t5 ++ [Ev.stdout Msg.started] ++ r.trace }

end RawService

/-! ## Concrete inputs used below -/

/-- The frame of the end-to-end scenario: id 0x100, dlc 4, payload
`01 02 03 04` (the remaining bytes zero), fully read and fully written. -/
def rawEchoExample : RawEcho.Iter :=
  { readR := { nbytes := 16, errno := 0,
               buf := { can_id := 0x100, can_dlc := 4, data := [1, 2, 3, 4, 0, 0, 0, 0] } },
    writeR := { nbytes := 16, errno := 0 },
    sigs := [] }

/-- An `RX_CHANGED` notification of the end-to-end scenario: id 0x123, dlc 3,
payload `10 20 30` (hexadecimal), read in full on a 64 bit host (header of 56
bytes) and written in full. -/
def bcmEchoExample : BcmEcho.Iter :=
  { readR := { nbytes := 72, errno := 0,
               buf := { msg_head := { opcode := RX_CHANGED, flags := 0, count := 0,
                                      ival1 := ⟨0, 0⟩, ival2 := ⟨0, 0⟩,
                                      can_id := 0x123, nframes := 1 },
                        frame := { can_id := 0x123, can_dlc := 3,
                                   data := [0x10, 0x20, 0x30, 0, 0, 0, 0, 0] } } },
    writeR := { nbytes := 72, errno := 0 },
    sigs := [] }

/-- An environment of the cyclic demo in which every call succeeds on a 64
bit host, the local `msg` initially holds 0xFF in every field shown, no signal
arrives and no loop iteration is supplied. -/
def cyclicExample : Cyclic.Env :=
  { errno0 := 0,
    msg0 := { msg_head := { opcode := 0xFF, flags := 0xFF, count := 0xFF, ival1 := ⟨0xFF, 0xFF⟩,
                            ival2 := ⟨0xFF, 0xFF⟩, can_id := 0xFF, nframes := 0xFF },
              frame := List.replicate 4
                { can_id := 0xFF, can_dlc := 0xFF, data := List.replicate 8 0xFF } },
    signalInt := Sys.ok 0, signalTerm := Sys.ok 0, signalChld := Sys.ok 0,
    socketR := Sys.ok 3, ioctlR := Sys.ok 0, connectR := Sys.ok 0,
    setupWriteR := { nbytes := 120, errno := 0 },
    closeR := Sys.ok 0, perrorR := Perror.keeps,
    sigsSetup := [], sigsReady := [], iters := [] }

/-- An environment of the broadcast-manager echo demo on a 64 bit host in
which every call succeeds, the local `msg` starts filled with 0xFF, one
notification (`bcmEchoExample`) is read and SIGINT arrives during that
iteration. -/
def bcmEnvExample : BcmEcho.Env :=
  { errno0 := 0,
    msg0 := { msg_head := { opcode := 0xFF, flags := 0xFF, count := 0xFF, ival1 := ⟨0xFF, 0xFF⟩,
                            ival2 := ⟨0xFF, 0xFF⟩, can_id := 0xFF, nframes := 0xFF },
              frame := { can_id := 0xFF, can_dlc := 0xFF, data := List.replicate 8 0xFF } },
    signalInt := Sys.ok 0, signalTerm := Sys.ok 0, signalChld := Sys.ok 0,
    socketR := Sys.ok 3, ioctlR := Sys.ok 0, connectR := Sys.ok 0,
    getflR := Sys.ok 2, setflR := Sys.ok 0,
    setupWriteR := { nbytes := 72, errno := 0 },
    closeR := Sys.ok 0, perrorR := Perror.keeps,
    sigsSetup := [], sigsReady := [],
    iters := [{ bcmEchoExample with sigs := [SIGINT] }] }

/-- An iteration of the raw echo loop in which `read` finds nothing to read
(`EAGAIN`) and no signal arrives. -/
def rawEchoIdle : RawEcho.Iter :=
  { readR := { nbytes := -1, errno := EAGAIN,
               buf := { can_id := 0, can_dlc := 0, data := List.replicate 8 0 } },
    writeR := { nbytes := 16, errno := 0 },
    sigs := [] }

/-- An environment of the raw echo demo in which every call succeeds, no signal
arrives and one idle iteration is supplied. -/
def rawEchoEnvExample : RawEcho.Env :=
  { errno0 := 0,
    signalInt := Sys.ok 0, signalTerm := Sys.ok 0, signalChld := Sys.ok 0,
    socketR := Sys.ok 3, ioctlR := Sys.ok 0, bindR := Sys.ok 0,
    getflR := Sys.ok 2, setflR := Sys.ok 0,
    closeR := Sys.ok 0, perrorR := Perror.keeps,
    sigsSetup := [], sigsReady := [],
    iters := [rawEchoIdle] }

/-- An iteration of the broadcast-manager echo loop in which `read` finds
nothing to read (`EAGAIN`) and no signal arrives. -/
def bcmEchoIdle : BcmEcho.Iter :=
  { bcmEchoExample with readR := { bcmEchoExample.readR with nbytes := -1, errno := EAGAIN } }

/-- An iteration of the raw service loop in which the blocking `read` is
interrupted (`EINTR`) and no handler of the program runs. -/
def rawServiceIdle : RawService.Iter :=
  { readR := { nbytes := -1, errno := EINTR,
               buf := { can_id := 0, len := 0, flags := 0, data := List.replicate 64 0 } },
    sigs := [] }

/-- An environment of the raw service on a little-endian host in which every
call succeeds, no signal arrives and one idle iteration is supplied. -/
def rawServiceEnvExample : RawService.Env :=
  { errno0 := 0, hostLittleEndian := true,
    socketR := Sys.ok 3, filterR := Sys.ok 0, fdFramesR := Sys.ok 0,
    ioctlR := Sys.ok 0, bindR := Sys.ok 0, closeR := Sys.ok 0, perrorR := Perror.keeps,
    sigsSetup := [], sigsReady := [],
    iters := [rawServiceIdle] }

/-- A short read of the raw echo demo: 10 bytes where `sizeof(frame)` = 16 are
expected. -/
def rawEchoShort : RawEcho.Iter :=
  { rawEchoExample with readR := { rawEchoExample.readR with nbytes := 10 } }

/-- A short read of the broadcast-manager echo demo: the 56 bytes of the header
only, where `sizeof(msg)` = 72 are expected. -/
def bcmEchoShort : BcmEcho.Iter :=
  { bcmEchoExample with readR := { bcmEchoExample.readR with nbytes := 56 } }

/-- What it means for the events of one iteration that read `nbytes`
bytes, with `errno` left at `errno`, to tolerate the short read: nothing is written, the socket is not
closed, the iteration ends with the one `usleep(10000)`, and the diagnostics
are the "incomplete" one when `0 ≤ nbytes`, and `perror("read")` exactly when
`errno` is not `EAGAIN` when `nbytes < 0`. -/
def ShortReadTolerated (nbytes : Int) (errno : Nat) (evs : List Ev) : Prop :=
  frameWrites evs = [] ∧ msgWrites evs = [] ∧ Ev.close ∉ evs ∧
  evs.head? = some Ev.read ∧ evs.count Ev.read = 1 ∧
  evs.getLast? = some (Ev.usleep 10000) ∧ evs.count (Ev.usleep 10000) = 1 ∧
  (0 ≤ nbytes → evs.filter Ev.isStderr = [Ev.stderr Msg.readIncomplete]) ∧
  (nbytes < 0 → errno ≠ EAGAIN → evs.filter Ev.isStderr = [Ev.stderr Msg.perrorRead]) ∧
  (nbytes < 0 → errno = EAGAIN → evs.filter Ev.isStderr = [])

/-- A short read of the raw service: 10 bytes where `CAN_MTU` = 16 are
expected. -/
def rawServiceShort : RawService.Iter :=
  { readR := { nbytes := 10, errno := 0,
               buf := { can_id := 0x0A0, len := 2, flags := 0,
                        data := [0x12, 0x34] ++ List.replicate 62 0 } },
    sigs := [] }

/-- A full-size message whose header is ill-formed: an opcode that is none
of the kernel replies (0xFF) and `nframes` 7 for the one frame carried. -/
def bcmEchoMalformed : BcmEcho.Iter :=
  { bcmEchoExample with
    readR := { bcmEchoExample.readR with
      buf := { bcmEchoExample.readR.buf with
        msg_head := { bcmEchoExample.readR.buf.msg_head with opcode := 0xFF, nframes := 7 } } } }

/-! ## The interface lookup -/

/-- Size of the field `ifr_name` of `struct ifreq` (net/if.h: `IFNAMSIZ`). -/
def IFNAMSIZ : Nat := 16

/-- The characters of a C string held in a byte list: the bytes before the
first NUL (all of them when the list contains none). -/
def cstr (s : List Nat) : List Nat := s.takeWhile (fun b => b != 0)

/-- The libc `strncpy(dst, src, n)`, as the loop storing byte `i` with `n`
bytes left: the character `i` of `src` while there is one, NUL afterwards.
No terminating NUL is added when `src` has `n` characters or more. -/
def strncpyLoop : Nat → Nat → List Nat → List Nat → List Nat
  | 0, _, _, dst => dst
  | n + 1, i, src, dst => strncpyLoop n (i + 1) src (dst.set i (src.getD i 0))

/-- The call `strncpy(dst, src, n)` on the C string `src`. -/
def strncpy (dst src : List Nat) (n : Nat) : List Nat :=
  strncpyLoop n 0 (cstr src) dst

/-- What the interface lookup of a demo does: the content of `ifr.ifr_name`
on which `ioctl(s, SIOCGIFINDEX, &ifr)` is issued, the events, and the value
`main` returns there (`none` when `main` goes on to `bind` / `connect`). -/
structure Lookup where
  ifr_name : List Nat
  trace : List Ev
  ret : Option Int
  deriving DecidableEq, Repr

/-- The interface lookup of the three C demos (socketcan-raw-demo.c lines
144-149): `strncpy(ifr.ifr_name, iface, IFNAMSIZ);` and then
`if (ioctl(s, SIOCGIFINDEX, &ifr) < 0) { perror(...); return errno; }`.
`ifrName0` is the content of the uninitialised `ifr.ifr_name`, `iface` the
command-line argument, `perrorR` what that `perror` does to `errno`. -/
def RawEcho.lookup (ifrName0 iface : List Nat) (ioctlR : Sys) (perrorR : Perror)
    (errno : Nat) : Lookup :=
  let name := strncpy ifrName0 iface IFNAMSIZ
  if ioctlR.ret < 0 then
    { ifr_name := name, trace := [Ev.ioctl, Ev.stderr Msg.perrorIoctl],
      ret := some ((perrorR.errnoAfter (ioctlR.errnoAfter errno) : Nat) : Int) }
  else
    { ifr_name := name, trace := [Ev.ioctl], ret := none }

/-- The interface lookup of the raw service (socketcan-raw-demo.cpp lines
249-254): `std::strncpy(ifr.ifr_name, interface, IFNAMSIZ);` and then
`if (::ioctl(sockfd, SIOCGIFINDEX, &ifr) == -1) { perror; goto errSetup; }`. -/
def RawService.lookup (ifrName0 iface : List Nat) (ioctlR closeR : Sys) (perrorR : Perror)
    (errno : Nat) : Lookup :=
  let name := strncpy ifrName0 iface IFNAMSIZ
  if ioctlR.ret = -1 then
    let fin := RawService.errSetup closeR (perrorR.errnoAfter (ioctlR.errnoAfter errno))
    { ifr_name := name, trace := [Ev.ioctl, Ev.stderr Msg.perrorIoctl] ++ fin.1,
      ret := some fin.2 }
  else
    { ifr_name := name, trace := [Ev.ioctl], ret := none }

/-! ## Receive filters -/

/-- Flag bits of a `canid_t` (linux/can.h). -/
def CAN_EFF_FLAG : Nat := 0x80000000
def CAN_RTR_FLAG : Nat := 0x40000000
def CAN_ERR_FLAG : Nat := 0x20000000

/-- Modelled from the spec: the receive filter rule applied by the kernel for
one filter (`id`, `mask`), "a received frame matches when
(frame.id XOR id) AND mask == 0". -/
def filterMatches (f : Nat × Nat) (canId : Nat) : Bool :=
  ((canId ^^^ f.1) &&& f.2) == 0

/-- Modelled from the spec: admission by a filter set, "filters are evaluated
as an OR across the configured set; the empty set matches every frame". -/
def admitted (fs : List (Nat × Nat)) (canId : Nat) : Bool :=
  if fs.isEmpty then true else fs.any (fun f => filterMatches f canId)

/-! ## Further concrete inputs -/

/-- The name `vcan0xxxxxxxxxxxxxxx` (20 characters), as bytes. -/
def longName : List Nat := [118, 99, 97, 110, 48] ++ List.replicate 15 120

/-- An engine frame of one byte: id 0x0A0, `len` 1, first byte 0x12 and the
given content of the byte at index 1, which is beyond `len`. -/
def engineFrameShort (b1 : Nat) : canfd_frame :=
  { can_id := 0x0A0, len := 1, flags := 0, data := [0x12, b1] ++ List.replicate 62 0 }

/-- An engine frame of two bytes `12 34`: id 0x0A0, `len` 2. -/
def engineFrame : canfd_frame :=
  { can_id := 0x0A0, len := 2, flags := 0, data := [0x12, 0x34] ++ List.replicate 62 0 }

/-- A remote-transmission request for the standard identifier 0x0A0:
`can_id` = 0x0A0 | `CAN_RTR_FLAG`, no data. -/
def rtrEngineFrame : canfd_frame :=
  { can_id := 0x400000A0, len := 0, flags := 0, data := List.replicate 64 0 }

/-- An extended frame whose 29 bit identifier 0x8A0 has 0x0A0 as its low 11
bits: `can_id` = 0x8A0 | `CAN_EFF_FLAG`. -/
def effEngineFrame : canfd_frame :=
  { can_id := 0x800008A0, len := 2, flags := 0, data := [0x12, 0x34] ++ List.replicate 62 0 }

/-- The environment `cyclicExample` with a local `msg` whose header starts
filled with zeros instead of 0xFF; nothing else differs. -/
def cyclicExampleZeroed : Cyclic.Env :=
  { cyclicExample with
    msg0 := { cyclicExample.msg0 with
      msg_head := { opcode := 0, flags := 0, count := 0, ival1 := ⟨0, 0⟩, ival2 := ⟨0, 0⟩,
                    can_id := 0, nframes := 0 } } }

/-- The environment `bcmEnvExample` with a local `msg` whose header starts
filled with zeros instead of 0xFF; nothing else differs. -/
def bcmEnvExampleZeroed : BcmEcho.Env :=
  { bcmEnvExample with
    msg0 := { bcmEnvExample.msg0 with
      msg_head := { opcode := 0, flags := 0, count := 0, ival1 := ⟨0, 0⟩, ival2 := ⟨0, 0⟩,
                    can_id := 0, nframes := 0 } } }

/-! # Properties -/

/-! ## Lemmas on the byte loops -/

theorem getD_set_byte (l : List Nat) (i j v : Nat) :
    (l.set i v).getD j 0 = if i = j ∧ j < l.length then v else l.getD j 0 := by
  simp only [List.getD_eq_getElem?_getD, List.getElem?_set]
  by_cases h : i = j
  · subst h
    by_cases h2 : i < l.length
    · simp [h2]
    · simp [h2, List.getElem?_eq_none (Nat.le_of_not_lt h2)]
  · simp [h]

theorem incLoop_length (n i : Nat) (data : List Nat) :
    (incLoop n i data).length = data.length := by
  induction n generalizing i data with
  | zero => rfl
  | succ n ih => simp [incLoop, ih]

theorem incLoop_getD (n i : Nat) (data : List Nat) (j : Nat) :
    (incLoop n i data).getD j 0 =
      if i ≤ j ∧ j < i + n ∧ j < data.length then (data.getD j 0 + 1) % 256
      else data.getD j 0 := by
  induction n generalizing i data with
  | zero =>
    have h : ¬ (i ≤ j ∧ j < i + 0 ∧ j < data.length) := by omega
    rw [incLoop, if_neg h]
  | succ n ih =>
    rw [incLoop, ih, getD_set_byte, List.length_set]
    by_cases hij : i = j
    · subst hij
      by_cases hl : i < data.length
      · simp [hl]
      · simp [hl]
    · by_cases h1 : i + 1 ≤ j
      · have h2 : i ≤ j := by omega
        have h3 : (j < i + 1 + n) = (j < i + (n + 1)) := by
          apply propext; constructor <;> intro h <;> omega
        simp [hij, h1, h2, h3]
      · have h2 : ¬ i ≤ j := by omega
        simp [hij, h1, h2]

theorem incrementBytes_length (dlc : Nat) (data : List Nat) :
    (incrementBytes dlc data).length = data.length :=
  incLoop_length dlc 0 data

theorem incrementBytes_getD_lt (dlc : Nat) (data : List Nat) (j : Nat)
    (hj : j < dlc) (hlen : dlc ≤ data.length) :
    (incrementBytes dlc data).getD j 0 = (data.getD j 0 + 1) % 256 := by
  have h : 0 ≤ j ∧ j < 0 + dlc ∧ j < data.length := ⟨Nat.zero_le j, by omega, by omega⟩
  rw [incrementBytes, incLoop_getD, if_pos h]

theorem incrementBytes_getD_ge (dlc : Nat) (data : List Nat) (j : Nat) (hj : dlc ≤ j) :
    (incrementBytes dlc data).getD j 0 = data.getD j 0 := by
  have h : ¬ (0 ≤ j ∧ j < 0 + dlc ∧ j < data.length) := by omega
  rw [incrementBytes, incLoop_getD, if_neg h]

/-! ## The echo transforms -/

/-- C1. Raw echo transform: for every fully read classic frame with
`can_dlc ≤ 8`, the iteration hands exactly one frame to `write`, of
`sizeof(frame)` bytes; it has `can_id` 0x0CC whatever the received identifier
was, the received `can_dlc`, and each data byte below `can_dlc` is the received
byte plus one modulo 256. -/
theorem C1_raw_echo_transform (it : RawEcho.Iter)
    (hfull : (CAN_MTU : Int) ≤ it.readR.nbytes)
    (hlen : it.readR.buf.data.length = 8)
    (hdlc : it.readR.buf.can_dlc ≤ 8) :
    ∃ out : can_frame,
      frameWrites (RawEcho.body it) = [(out, CAN_MTU)] ∧
      out.can_id = 0x0CC ∧
      out.can_dlc = it.readR.buf.can_dlc ∧
      ∀ i, i < it.readR.buf.can_dlc →
        out.data.getD i 0 = (it.readR.buf.data.getD i 0 + 1) % 256 := by
  refine ⟨RawEcho.echoFrame it.readR.buf, ?_, rfl, rfl, ?_⟩
  · have h1 : ¬ it.readR.nbytes < 0 := by
      have : (0 : Int) ≤ (CAN_MTU : Int) := Int.natCast_nonneg _
      omega
    have h2 : ¬ it.readR.nbytes < (CAN_MTU : Int) := by omega
    unfold RawEcho.body
    simp only [h1, h2, if_false]
    split_ifs <;> rfl
  · intro i hi
    exact incrementBytes_getD_lt _ _ i hi (by rw [hlen]; exact hdlc)

/-- C1 at the scenario of the specification: id 0x100, dlc 4, payload
`01 02 03 04` is answered by id 0x0CC, dlc 4, payload `02 03 04 05`. -/
theorem C1_raw_echo_transform_witness :
    frameWrites (RawEcho.body rawEchoExample) =
        [({ can_id := 0x0CC, can_dlc := 4, data := [2, 3, 4, 5, 0, 0, 0, 0] }, 16)] ∧
      ∃ out : can_frame,
        frameWrites (RawEcho.body rawEchoExample) = [(out, CAN_MTU)] ∧
        out.can_id = 0x0CC ∧
        out.can_dlc = rawEchoExample.readR.buf.can_dlc ∧
        ∀ i, i < rawEchoExample.readR.buf.can_dlc →
          out.data.getD i 0 = (rawEchoExample.readR.buf.data.getD i 0 + 1) % 256 :=
  ⟨by decide, C1_raw_echo_transform rawEchoExample (by decide) (by decide) (by decide)⟩

/-- C2. Broadcast-manager echo reply: for every full-size message read whose
frame has `can_dlc ≤ 8`, the iteration hands exactly one message to `write`;
its header has opcode `TX_SEND`, `can_id` 0, flags 0 and `nframes` 1, which is
the number of frames it carries; its frame has `can_id` 0x0BC, the received
`can_dlc`, and each data byte below `can_dlc` is the received byte plus one
modulo 256. -/
theorem C2_bcm_echo_reply (mhsiz : Nat) (it : BcmEcho.Iter)
    (hfull : (sizeofCanMsg mhsiz BcmEcho.NFRAMES : Int) ≤ it.readR.nbytes)
    (hlen : it.readR.buf.frame.data.length = 8)
    (hdlc : it.readR.buf.frame.can_dlc ≤ 8) :
    ∃ (head : bcm_msg_head) (frame : can_frame),
      msgWrites (BcmEcho.body mhsiz it) =
        [(head, [frame], sizeofCanMsg mhsiz BcmEcho.NFRAMES)] ∧
      head.opcode = TX_SEND ∧ head.can_id = 0 ∧ head.flags = 0 ∧ head.nframes = 1 ∧
      [frame].length = head.nframes ∧
      frame.can_id = 0x0BC ∧
      frame.can_dlc = it.readR.buf.frame.can_dlc ∧
      ∀ i, i < it.readR.buf.frame.can_dlc →
        frame.data.getD i 0 = (it.readR.buf.frame.data.getD i 0 + 1) % 256 := by
  refine ⟨(BcmEcho.echoMsg it.readR.buf).msg_head, (BcmEcho.echoMsg it.readR.buf).frame,
    ?_, rfl, rfl, rfl, rfl, rfl, rfl, rfl, ?_⟩
  · have h1 : ¬ it.readR.nbytes < 0 := by
      have : (0 : Int) ≤ (sizeofCanMsg mhsiz BcmEcho.NFRAMES : Int) := Int.natCast_nonneg _
      omega
    have h2 : ¬ it.readR.nbytes < (sizeofCanMsg mhsiz BcmEcho.NFRAMES : Int) := by omega
    unfold BcmEcho.body
    simp only [h1, h2, if_false]
    split_ifs <;> rfl
  · intro i hi
    exact incrementBytes_getD_lt _ _ i hi (by rw [hlen]; exact hdlc)

/-- C2 at the scenario of the specification: id 0x123 with payload `10 20 30`
is answered by a `TX_SEND` carrying id 0x0BC with payload `11 21 31`. -/
theorem C2_bcm_echo_reply_witness :
    msgWrites (BcmEcho.body 56 bcmEchoExample) =
        [({ opcode := TX_SEND, flags := 0, count := 0, ival1 := ⟨0, 0⟩, ival2 := ⟨0, 0⟩,
            can_id := 0, nframes := 1 },
          [{ can_id := 0x0BC, can_dlc := 3, data := [0x11, 0x21, 0x31, 0, 0, 0, 0, 0] }],
          72)] ∧
      ∃ (head : bcm_msg_head) (frame : can_frame),
        msgWrites (BcmEcho.body 56 bcmEchoExample) =
          [(head, [frame], sizeofCanMsg 56 BcmEcho.NFRAMES)] ∧
        head.opcode = TX_SEND ∧ head.can_id = 0 ∧ head.flags = 0 ∧ head.nframes = 1 ∧
        [frame].length = head.nframes ∧
        frame.can_id = 0x0BC ∧
        frame.can_dlc = bcmEchoExample.readR.buf.frame.can_dlc ∧
        ∀ i, i < bcmEchoExample.readR.buf.frame.can_dlc →
          frame.data.getD i 0 = (bcmEchoExample.readR.buf.frame.data.getD i 0 + 1) % 256 :=
  ⟨by decide, C2_bcm_echo_reply 56 bcmEchoExample (by decide) (by decide) (by decide)⟩

/-! ## Lemmas on traces -/

theorem msgWrites_append (a b : List Ev) : msgWrites (a ++ b) = msgWrites a ++ msgWrites b := by
  induction a with
  | nil => rfl
  | cons e a ih => cases e <;> simp [msgWrites, ih]

theorem frameWrites_append (a b : List Ev) :
    frameWrites (a ++ b) = frameWrites a ++ frameWrites b := by
  induction a with
  | nil => rfl
  | cons e a ih => cases e <;> simp [frameWrites, ih]

theorem registerSignals_msgWrites (a b c : Sys) (e : Nat) :
    msgWrites (registerSignals a b c e).1 = [] := by
  unfold registerSignals
  split_ifs <;> rfl

theorem closeAndExit_msgWrites (c : Sys) (p : Perror) (e : Nat) :
    msgWrites (closeAndExit c p e).1 = [] := by
  unfold closeAndExit
  split_ifs <;> rfl

theorem cyclic_loop_msgWrites (c : Sys) (p : Perror) (e : Nat) (sigval : Int)
    (its : List (List Nat)) :
    msgWrites (Cyclic.loop c p e sigval its).trace = [] := by
  induction its generalizing sigval with
  | nil =>
    unfold Cyclic.loop
    split_ifs
    · rfl
    · exact closeAndExit_msgWrites c p e
  | cons sigs rest ih =>
    unfold Cyclic.loop
    split_ifs
    · simp [msgWrites, ih]
    · exact closeAndExit_msgWrites c p e

/-- The messages the cyclic demo writes: the `TX_SETUP` once the socket is
connected, and nothing else. -/
theorem cyclic_main_msgWrites (mhsiz : Nat) (env : Cyclic.Env) :
    msgWrites (Cyclic.main mhsiz env).trace =
      if (registerSignals env.signalInt env.signalTerm env.signalChld env.errno0).2.1 = false ∧
          0 ≤ env.socketR.ret ∧ 0 ≤ env.ioctlR.ret ∧ 0 ≤ env.connectR.ret then
        [((Cyclic.txSetupMsg env.msg0).msg_head, (Cyclic.txSetupMsg env.msg0).frame,
          sizeofCanMsg mhsiz Cyclic.NFRAMES)]
      else [] := by
  unfold Cyclic.main
  by_cases hreg : (registerSignals env.signalInt env.signalTerm env.signalChld env.errno0).2.1
  · simp [hreg, msgWrites_append, registerSignals_msgWrites, msgWrites]
  · by_cases h1 : env.socketR.ret < 0
    · have h1n : ¬ 0 ≤ env.socketR.ret := by omega
      simp [hreg, h1, h1n, msgWrites_append, registerSignals_msgWrites, msgWrites]
    · by_cases h2 : env.ioctlR.ret < 0
      · have h2n : ¬ 0 ≤ env.ioctlR.ret := by omega
        simp [hreg, h1, h2, h2n, msgWrites_append, registerSignals_msgWrites, msgWrites]
      · by_cases h3 : env.connectR.ret < 0
        · have h3n : ¬ 0 ≤ env.connectR.ret := by omega
          simp [hreg, h1, h2, h3, h3n, msgWrites_append, registerSignals_msgWrites, msgWrites]
        · have h1p : 0 ≤ env.socketR.ret := by omega
          have h2p : 0 ≤ env.ioctlR.ret := by omega
          have h3p : 0 ≤ env.connectR.ret := by omega
          by_cases h4 : env.setupWriteR.nbytes < 0
          · simp [hreg, h1, h2, h3, h4, h1p, h2p, h3p, msgWrites_append,
              registerSignals_msgWrites, msgWrites]
          · simp [hreg, h1, h2, h3, h4, h1p, h2p, h3p, msgWrites_append,
              registerSignals_msgWrites, msgWrites, cyclic_loop_msgWrites]

/-! ## The cyclic install message -/

theorem memsetLoop_getD (n k c : Nat) (data : List Nat) (j : Nat) :
    (memsetLoop n k c data).getD j 0 =
      if k ≤ j ∧ j < k + n ∧ j < data.length then c % 256 else data.getD j 0 := by
  induction n generalizing k data with
  | zero =>
    have h : ¬ (k ≤ j ∧ j < k + 0 ∧ j < data.length) := by omega
    rw [memsetLoop, if_neg h]
  | succ n ih =>
    rw [memsetLoop, ih, getD_set_byte, List.length_set]
    by_cases hkj : k = j
    · subst hkj
      by_cases hl : k < data.length
      · simp [hl]
      · simp [hl]
    · by_cases h1 : k + 1 ≤ j
      · have h2 : k ≤ j := by omega
        have h3 : (j < k + 1 + n) = (j < k + (n + 1)) := by
          apply propext; constructor <;> intro h <;> omega
        simp [hkj, h1, h2, h3]
      · have h2 : ¬ k ≤ j := by omega
        simp [hkj, h1, h2]

theorem fillLoop_getElem? (n i : Nat) (frames : List can_frame) (j : Nat) :
    (Cyclic.fillLoop n i frames)[j]? =
      if i ≤ j ∧ j < i + n then (frames[j]?).map (Cyclic.fillFrame j) else frames[j]? := by
  induction n generalizing i frames with
  | zero =>
    have h : ¬ (i ≤ j ∧ j < i + 0) := by omega
    rw [Cyclic.fillLoop, if_neg h]
  | succ n ih =>
    rw [Cyclic.fillLoop, ih, List.getElem?_set]
    by_cases hij : i = j
    · subst hij
      have h1 : ¬ (i + 1 ≤ i ∧ i < i + 1 + n) := by omega
      have h2 : i ≤ i ∧ i < i + (n + 1) := by omega
      rw [if_neg h1, if_pos h2, if_pos rfl]
      by_cases hl : i < frames.length
      · simp [hl, List.getD_eq_getElem?_getD, List.getElem?_eq_getElem hl]
      · simp [hl, List.getElem?_eq_none (Nat.le_of_not_lt hl)]
    · by_cases h1 : i + 1 ≤ j
      · have h2 : i + 1 ≤ j ∧ j < i + 1 + n ↔ i ≤ j ∧ j < i + (n + 1) := by
          constructor <;> intro h <;> omega
        simp [hij, h2]
      · have h2 : ¬ (i + 1 ≤ j ∧ j < i + 1 + n) := by omega
        have h3 : ¬ (i ≤ j ∧ j < i + (n + 1)) := by omega
        simp [hij, h2, h3]

theorem fillLoop_length (n i : Nat) (frames : List can_frame) :
    (Cyclic.fillLoop n i frames).length = frames.length := by
  induction n generalizing i frames with
  | zero => rfl
  | succ n ih => simp [Cyclic.fillLoop, ih]

/-- C3. Cyclic install message: the demo writes at most one message; once the
handlers are registered and `socket`, `ioctl` and `connect` have succeeded it
writes exactly one, of `sizeof(msg)` bytes. Every message it writes has opcode
`TX_SETUP`, flags `SETTIMER|STARTTIMER`, `nframes` 4, `count` 0 and `ival2` =
(1 s, 200000 us), that is 1200000 microseconds; and for every `i` in 0..3 its
frame `i` has `can_id` 0x0C0 + i, `can_dlc` 3 and first three data bytes `i`. -/
theorem C3_cyclic_install_message (mhsiz : Nat) (env : Cyclic.Env)
    (hframes : env.msg0.frame.length = 4)
    (hdata : ∀ f ∈ env.msg0.frame, f.data.length = 8) :
    (msgWrites (Cyclic.main mhsiz env).trace).length ≤ 1 ∧
    ((registerSignals env.signalInt env.signalTerm env.signalChld env.errno0).2.1 = false →
      0 ≤ env.socketR.ret → 0 ≤ env.ioctlR.ret → 0 ≤ env.connectR.ret →
      (msgWrites (Cyclic.main mhsiz env).trace).length = 1) ∧
    ∀ head frames len, (head, frames, len) ∈ msgWrites (Cyclic.main mhsiz env).trace →
      len = sizeofCanMsg mhsiz 4 ∧
      head.opcode = TX_SETUP ∧
      head.flags = SETTIMER ||| STARTTIMER ∧
      head.nframes = 4 ∧
      head.count = 0 ∧
      head.ival2 = { tv_sec := 1, tv_usec := 200000 } ∧
      head.ival2.tv_sec * 1000000 + head.ival2.tv_usec = 1200000 ∧
      frames.length = 4 ∧
      ∀ i, i < 4 → ∃ f, frames[i]? = some f ∧
        f.can_id = 0x0C0 + i ∧ f.can_dlc = 3 ∧ ∀ j, j < 3 → f.data.getD j 0 = i := by
  rw [cyclic_main_msgWrites]
  refine ⟨by split_ifs <;> simp, ?_, ?_⟩
  · intro h0 h1 h2 h3
    rw [if_pos ⟨h0, h1, h2, h3⟩]
    rfl
  · intro head frames len hmem
    split_ifs at hmem with hok
    · simp only [List.mem_singleton, Prod.mk.injEq] at hmem
      obtain ⟨rfl, rfl, rfl⟩ := hmem
      refine ⟨rfl, rfl, rfl, rfl, rfl, rfl, by norm_num [Cyclic.txSetupMsg], ?_, ?_⟩
      · show (Cyclic.fillLoop Cyclic.NFRAMES 0 env.msg0.frame).length = 4
        rw [fillLoop_length, hframes]
      · intro i hi
        have hil : i < env.msg0.frame.length := by omega
        have hget : env.msg0.frame[i]? = some env.msg0.frame[i] := List.getElem?_eq_getElem hil
        have hin : 0 ≤ i ∧ i < 0 + Cyclic.NFRAMES := ⟨Nat.zero_le i, by simpa [Cyclic.NFRAMES] using hi⟩
        refine ⟨Cyclic.fillFrame i env.msg0.frame[i], ?_, rfl, rfl, ?_⟩
        · show (Cyclic.fillLoop Cyclic.NFRAMES 0 env.msg0.frame)[i]? = _
          rw [fillLoop_getElem?, if_pos hin, hget]
          rfl
        · intro j hj
          have hlen : env.msg0.frame[i].data.length = 8 :=
            hdata _ (List.getElem_mem hil)
          have hjn : 0 ≤ j ∧ j < 0 + Cyclic.MSGLEN ∧ j < env.msg0.frame[i].data.length := by
            refine ⟨Nat.zero_le j, by simpa [Cyclic.MSGLEN] using hj, by omega⟩
          show (memsetLoop Cyclic.MSGLEN 0 i env.msg0.frame[i].data).getD j 0 = i
          rw [memsetLoop_getD, if_pos hjn]
          omega
    · simp at hmem

/-- C3 on a host where every call succeeds and the local `msg` starts filled
with 0xFF: the one message written, in full. -/
theorem C3_cyclic_install_message_witness :
    msgWrites (Cyclic.main 56 cyclicExample).trace =
        [({ opcode := 1, flags := 3, count := 0, ival1 := ⟨0xFF, 0xFF⟩,
            ival2 := ⟨1, 200000⟩, can_id := 0, nframes := 4 },
          [{ can_id := 0x0C0, can_dlc := 3, data := [0, 0, 0, 255, 255, 255, 255, 255] },
           { can_id := 0x0C1, can_dlc := 3, data := [1, 1, 1, 255, 255, 255, 255, 255] },
           { can_id := 0x0C2, can_dlc := 3, data := [2, 2, 2, 255, 255, 255, 255, 255] },
           { can_id := 0x0C3, can_dlc := 3, data := [3, 3, 3, 255, 255, 255, 255, 255] }],
          120)] ∧
      ((msgWrites (Cyclic.main 56 cyclicExample).trace).length ≤ 1 ∧
      ((registerSignals cyclicExample.signalInt cyclicExample.signalTerm
          cyclicExample.signalChld cyclicExample.errno0).2.1 = false →
        0 ≤ cyclicExample.socketR.ret → 0 ≤ cyclicExample.ioctlR.ret →
        0 ≤ cyclicExample.connectR.ret →
        (msgWrites (Cyclic.main 56 cyclicExample).trace).length = 1) ∧
      ∀ head frames len,
        (head, frames, len) ∈ msgWrites (Cyclic.main 56 cyclicExample).trace →
        len = sizeofCanMsg 56 4 ∧
        head.opcode = TX_SETUP ∧
        head.flags = SETTIMER ||| STARTTIMER ∧
        head.nframes = 4 ∧
        head.count = 0 ∧
        head.ival2 = { tv_sec := 1, tv_usec := 200000 } ∧
        head.ival2.tv_sec * 1000000 + head.ival2.tv_usec = 1200000 ∧
        frames.length = 4 ∧
        ∀ i, i < 4 → ∃ f, frames[i]? = some f ∧
          f.can_id = 0x0C0 + i ∧ f.can_dlc = 3 ∧ ∀ j, j < 3 → f.data.getD j 0 = i) :=
  ⟨by decide, C3_cyclic_install_message 56 cyclicExample (by decide) (by decide)⟩

/-! ## Declared and carried frame counts -/

theorem framesInBytes_sizeof (mhsiz n : Nat) : framesInBytes mhsiz (sizeofCanMsg mhsiz n) = n := by
  unfold framesInBytes sizeofCanMsg CAN_MTU
  rw [Nat.add_sub_cancel_left]
  exact Nat.mul_div_cancel n (by decide)

theorem bcm_body_msgWrites (mhsiz : Nat) (it : BcmEcho.Iter) :
    msgWrites (BcmEcho.body mhsiz it) =
      if it.readR.nbytes < (sizeofCanMsg mhsiz BcmEcho.NFRAMES : Int) then []
      else [((BcmEcho.echoMsg it.readR.buf).msg_head, [(BcmEcho.echoMsg it.readR.buf).frame],
              sizeofCanMsg mhsiz BcmEcho.NFRAMES)] := by
  have hs : (0 : Int) ≤ (sizeofCanMsg mhsiz BcmEcho.NFRAMES : Int) := Int.natCast_nonneg _
  unfold BcmEcho.body
  by_cases h1 : it.readR.nbytes < 0
  · have h2 : it.readR.nbytes < (sizeofCanMsg mhsiz BcmEcho.NFRAMES : Int) := by omega
    simp only [h1, h2, if_true]
    split_ifs <;> rfl
  · by_cases h2 : it.readR.nbytes < (sizeofCanMsg mhsiz BcmEcho.NFRAMES : Int)
    · simp only [h1, h2, if_true, if_false]
      rfl
    · simp only [h1, h2, if_false]
      split_ifs <;> rfl

theorem bcm_loop_msgWrites (mhsiz : Nat) (c : Sys) (p : Perror) (e : Nat) (sigval : Int)
    (its : List BcmEcho.Iter) :
    ∀ w ∈ msgWrites (BcmEcho.loop mhsiz c p e sigval its).trace,
      ∃ msg : BcmEcho.can_msg,
        w = ((BcmEcho.echoMsg msg).msg_head, [(BcmEcho.echoMsg msg).frame],
              sizeofCanMsg mhsiz BcmEcho.NFRAMES) := by
  induction its generalizing e sigval with
  | nil =>
    intro w hw
    unfold BcmEcho.loop at hw
    split_ifs at hw
    · simp [msgWrites] at hw
    · simp [closeAndExit_msgWrites] at hw
  | cons it rest ih =>
    intro w hw
    unfold BcmEcho.loop at hw
    split_ifs at hw
    · simp only [msgWrites_append, List.mem_append, bcm_body_msgWrites] at hw
      rcases hw with hw | hw
      · split_ifs at hw
        · simp at hw
        · exact ⟨it.readR.buf, by simpa using hw⟩
      · exact ih _ _ w hw
    · simp [closeAndExit_msgWrites] at hw

theorem bcm_main_msgWrites (mhsiz : Nat) (env : BcmEcho.Env) :
    ∀ w ∈ msgWrites (BcmEcho.main mhsiz env).trace,
      w = ((BcmEcho.rxSetupMsg env.msg0).msg_head, [(BcmEcho.rxSetupMsg env.msg0).frame],
            sizeofCanMsg mhsiz BcmEcho.NFRAMES) ∨
      ∃ msg : BcmEcho.can_msg,
        w = ((BcmEcho.echoMsg msg).msg_head, [(BcmEcho.echoMsg msg).frame],
              sizeofCanMsg mhsiz BcmEcho.NFRAMES) := by
  intro w hw
  unfold BcmEcho.main at hw
  simp only [] at hw
  split_ifs at hw <;>
    simp only [msgWrites_append, registerSignals_msgWrites, msgWrites, List.mem_append,
      List.append_nil, List.nil_append, List.not_mem_nil, List.mem_singleton, false_or,
      or_false] at hw
  · exact Or.inl hw
  · rcases hw with hw | hw
    · exact Or.inl hw
    · exact Or.inr (bcm_loop_msgWrites _ _ _ _ _ _ w hw)

/-- C4, as stated, fails on the `RX_SETUP` of the broadcast-manager echo demo:
on a 64 bit host (header of 56 bytes) where every call succeeds, the first
message written declares `nframes` 0, while the 72 bytes written hold one
frame after the header. -/
theorem C4_bcm_nframes_counterexample :
    ((BcmEcho.rxSetupMsg bcmEnvExample.msg0).msg_head,
        [(BcmEcho.rxSetupMsg bcmEnvExample.msg0).frame], 72) ∈
      msgWrites (BcmEcho.main 56 bcmEnvExample).trace ∧
    (BcmEcho.rxSetupMsg bcmEnvExample.msg0).msg_head.opcode = RX_SETUP ∧
    (BcmEcho.rxSetupMsg bcmEnvExample.msg0).msg_head.nframes = 0 ∧
    framesInBytes 56 72 = 1 ∧
    ¬ (∀ head frames len, (head, frames, len) ∈ msgWrites (BcmEcho.main 56 bcmEnvExample).trace →
        head.nframes = framesInBytes 56 len) := by
  have hmem : ((BcmEcho.rxSetupMsg bcmEnvExample.msg0).msg_head,
        [(BcmEcho.rxSetupMsg bcmEnvExample.msg0).frame], 72) ∈
      msgWrites (BcmEcho.main 56 bcmEnvExample).trace := by decide
  refine ⟨hmem, by decide, by decide, by decide, ?_⟩
  intro h
  exact absurd (h _ _ _ hmem) (by decide)

/-- C4, amended. Every message the cyclic demo writes (its `TX_SETUP`)
declares as `nframes` the number of frames contained in the bytes written, and
so does every `TX_SEND` of the broadcast-manager echo demo. The only other
message that demo writes is its `RX_SETUP`, which declares `nframes` 0 and is
written with `sizeof(msg)` bytes, a header followed by room for one frame. -/
theorem C4_bcm_nframes_amended (mhsiz : Nat) (cenv : Cyclic.Env) (benv : BcmEcho.Env) :
    (∀ head frames len, (head, frames, len) ∈ msgWrites (Cyclic.main mhsiz cenv).trace →
      head.opcode = TX_SETUP ∧ head.nframes = framesInBytes mhsiz len) ∧
    (∀ head frames len, (head, frames, len) ∈ msgWrites (BcmEcho.main mhsiz benv).trace →
      (head.opcode = TX_SEND ∧ head.nframes = framesInBytes mhsiz len) ∨
      (head.opcode = RX_SETUP ∧ head.nframes = 0 ∧ len = sizeofCanMsg mhsiz 1 ∧
        framesInBytes mhsiz len = 1)) := by
  constructor
  · intro head frames len hmem
    rw [cyclic_main_msgWrites] at hmem
    split_ifs at hmem
    · simp only [List.mem_singleton, Prod.mk.injEq] at hmem
      obtain ⟨rfl, rfl, rfl⟩ := hmem
      exact ⟨rfl, (framesInBytes_sizeof mhsiz Cyclic.NFRAMES).symm⟩
    · simp at hmem
  · intro head frames len hmem
    rcases bcm_main_msgWrites mhsiz benv _ hmem with h | ⟨msg, h⟩
    · simp only [Prod.mk.injEq] at h
      obtain ⟨rfl, rfl, rfl⟩ := h
      exact Or.inr ⟨rfl, rfl, rfl, framesInBytes_sizeof mhsiz 1⟩
    · simp only [Prod.mk.injEq] at h
      obtain ⟨rfl, rfl, rfl⟩ := h
      exact Or.inl ⟨rfl, (framesInBytes_sizeof mhsiz 1).symm⟩

/-- C4, amended, on the two example runs: both disjuncts occur among the
messages of the echo demo, and the cyclic demo writes its `TX_SETUP`. -/
theorem C4_bcm_nframes_amended_witness :
    (msgWrites (Cyclic.main 56 cyclicExample).trace).map
        (fun w => (w.1.opcode, w.1.nframes, framesInBytes 56 w.2.2)) = [(1, 4, 4)] ∧
    (msgWrites (BcmEcho.main 56 bcmEnvExample).trace).map
        (fun w => (w.1.opcode, w.1.nframes, framesInBytes 56 w.2.2)) = [(5, 0, 1), (4, 1, 1)] ∧
    ((∀ head frames len,
        (head, frames, len) ∈ msgWrites (Cyclic.main 56 cyclicExample).trace →
        head.opcode = TX_SETUP ∧ head.nframes = framesInBytes 56 len) ∧
      (∀ head frames len,
        (head, frames, len) ∈ msgWrites (BcmEcho.main 56 bcmEnvExample).trace →
        (head.opcode = TX_SEND ∧ head.nframes = framesInBytes 56 len) ∨
        (head.opcode = RX_SETUP ∧ head.nframes = 0 ∧ len = sizeofCanMsg 56 1 ∧
          framesInBytes 56 len = 1))) :=
  ⟨by decide, by decide, C4_bcm_nframes_amended 56 cyclicExample bcmEnvExample⟩

/-! ## The shutdown flag during setup -/

/-- C5 evaluated where it fails: SIGINT is delivered once, after the handlers
are registered and before the program's own `sigval = 0` / `signalValue = 0`,
and every call succeeds. In each of the four demos the assignment clears the
flag the handler had set: the loop condition holds at its first test, the loop
body runs (`read`, or `usleep` in the cyclic demo), `close` is not reached and
the flag is 0 when the supplied iterations run out. The same signal delivered
after the assignment ends the raw echo demo with `EXIT_SUCCESS`. -/
theorem C5_signal_before_flag_init_is_lost :
    deliver [SIGINT] 0 = 2 ∧
    RawEcho.main { rawEchoEnvExample with sigsSetup := [SIGINT] } =
      { trace := [Ev.signal 2, Ev.signal 15, Ev.signal 17, Ev.socket, Ev.ioctl, Ev.bind,
                  Ev.fcntlGetfl, Ev.fcntlSetfl 2050, Ev.read, Ev.usleep 10000],
        ret := none, sigval := 0 } ∧
    (BcmEcho.main 56 { bcmEnvExample with sigsSetup := [SIGINT], iters := [bcmEchoIdle] }).ret
      = none ∧
    (BcmEcho.main 56 { bcmEnvExample with sigsSetup := [SIGINT], iters := [bcmEchoIdle] }).sigval
      = 0 ∧
    Ev.read ∈
      (BcmEcho.main 56 { bcmEnvExample with sigsSetup := [SIGINT], iters := [bcmEchoIdle] }).trace ∧
    (Cyclic.main 56 { cyclicExample with sigsSetup := [SIGINT], iters := [[]] }).ret = none ∧
    (Cyclic.main 56 { cyclicExample with sigsSetup := [SIGINT], iters := [[]] }).sigval = 0 ∧
    Ev.usleep 10000 ∈
      (Cyclic.main 56 { cyclicExample with sigsSetup := [SIGINT], iters := [[]] }).trace ∧
    RawService.main { rawServiceEnvExample with sigsSetup := [SIGINT] } =
      { trace := [Ev.signal 2, Ev.signal 15, Ev.signal 3, Ev.signal 1, Ev.socket,
                  Ev.setsockoptFilter [(0x0A0, 0x7FF), (0x110, 0x7FF), (0x320, 0x7FF)],
                  Ev.setsockoptFdFrames 1, Ev.ioctl, Ev.bind, Ev.stdout Msg.started, Ev.read],
        ret := none, sigval := 0 } ∧
    RawEcho.main { rawEchoEnvExample with sigsReady := [SIGINT] } =
      { trace := [Ev.signal 2, Ev.signal 15, Ev.signal 17, Ev.socket, Ev.ioctl, Ev.bind,
                  Ev.fcntlGetfl, Ev.fcntlSetfl 2050, Ev.stdout Msg.goodbye, Ev.close],
        ret := some 0, sigval := 2 } := by
  refine ⟨by decide, by decide, by decide, by decide, by decide, by decide, by decide,
    by decide, by decide, by decide⟩

/-! ## Return values of system calls -/

@[simp] theorem Sys.ret_fail (e : Nat) : (Sys.fail e).ret = -1 := rfl

@[simp] theorem Sys.ret_ok_ne (v : Nat) : ¬ (Sys.ok v).ret = -1 := by
  simp only [Sys.ret]; omega

@[simp] theorem Sys.ret_ok_ne_symm (v : Nat) : ¬ -1 = (Sys.ok v).ret := by
  simp only [Sys.ret]; omega

@[simp] theorem Sys.ret_ok_not_neg (v : Nat) : ¬ (Sys.ok v).ret < 0 := by
  simp only [Sys.ret]; omega

@[simp] theorem Sys.ret_fail_neg (e : Nat) : (Sys.fail e).ret < 0 := by
  simp only [Sys.ret]; omega

@[simp] theorem Sys.errnoAfter_fail (e old : Nat) : (Sys.fail e).errnoAfter old = e := rfl

@[simp] theorem Sys.errnoAfter_ok (v old : Nat) : (Sys.ok v).errnoAfter old = old := rfl

@[simp] theorem Perror.errnoAfter_keeps (old : Nat) : Perror.keeps.errnoAfter old = old := rfl

@[simp] theorem Perror.errnoAfter_sets (e old : Nat) : (Perror.sets e).errnoAfter old = e := rfl

theorem Sys.ret_eq_neg_one_iff (r : Sys) : r.ret = -1 ↔ ∃ e, r = Sys.fail e := by
  cases r with
  | ok v => simp
  | fail e => simp

/-! ## Release of the socket when the raw service fails to open -/

/-- C6. Raw service open releases the endpoint on failure. When `socket`
fails, `main` issues no `close` and returns `errno` as it stands after the
`perror` that follows. When `socket` succeeds and the filter `setsockopt`, the
CAN FD `setsockopt`, the `SIOCGIFINDEX` `ioctl` or `bind` fails, the run is
exactly: the calls up to the failing one, its `perror`, one `close`; no later
setup step and no `read` is issued, "Started" is not logged, and the value
returned is the current `errno`, that is the value the failing call stored, as
changed by the `perror` if it changed it, then by the `close` if it failed. -/
theorem C6_raw_service_open_releases (env : RawService.Env) :
    (∀ e, env.socketR = Sys.fail e →
      (RawService.main env).trace =
        [Ev.signal SIGINT, Ev.signal SIGTERM, Ev.signal SIGQUIT, Ev.signal SIGHUP,
          Ev.socket, Ev.stderr Msg.perrorSocket] ∧
      (RawService.main env).ret = some ((env.perrorR.errnoAfter e : Nat) : Int) ∧
      Ev.close ∉ (RawService.main env).trace) ∧
    (∀ fd e, env.socketR = Sys.ok fd → env.filterR = Sys.fail e →
      (RawService.main env).trace =
        [Ev.signal SIGINT, Ev.signal SIGTERM, Ev.signal SIGQUIT, Ev.signal SIGHUP,
          Ev.socket, Ev.setsockoptFilter RawService.filters, Ev.stderr Msg.perrorFilter,
          Ev.close] ∧
      (RawService.main env).ret =
        some ((env.closeR.errnoAfter (env.perrorR.errnoAfter e) : Nat) : Int)) ∧
    (∀ fd v e, env.socketR = Sys.ok fd → env.filterR = Sys.ok v →
      env.fdFramesR = Sys.fail e →
      (RawService.main env).trace =
        [Ev.signal SIGINT, Ev.signal SIGTERM, Ev.signal SIGQUIT, Ev.signal SIGHUP,
          Ev.socket, Ev.setsockoptFilter RawService.filters, Ev.setsockoptFdFrames 1,
          Ev.stderr Msg.perrorCanFd, Ev.close] ∧
      (RawService.main env).ret =
        some ((env.closeR.errnoAfter (env.perrorR.errnoAfter e) : Nat) : Int)) ∧
    (∀ fd v w e, env.socketR = Sys.ok fd → env.filterR = Sys.ok v →
      env.fdFramesR = Sys.ok w → env.ioctlR = Sys.fail e →
      (RawService.main env).trace =
        [Ev.signal SIGINT, Ev.signal SIGTERM, Ev.signal SIGQUIT, Ev.signal SIGHUP,
          Ev.socket, Ev.setsockoptFilter RawService.filters, Ev.setsockoptFdFrames 1,
          Ev.ioctl, Ev.stderr Msg.perrorIoctl, Ev.close] ∧
      (RawService.main env).ret =
        some ((env.closeR.errnoAfter (env.perrorR.errnoAfter e) : Nat) : Int)) ∧
    (∀ fd v w x e, env.socketR = Sys.ok fd → env.filterR = Sys.ok v →
      env.fdFramesR = Sys.ok w → env.ioctlR = Sys.ok x → env.bindR = Sys.fail e →
      (RawService.main env).trace =
        [Ev.signal SIGINT, Ev.signal SIGTERM, Ev.signal SIGQUIT, Ev.signal SIGHUP,
          Ev.socket, Ev.setsockoptFilter RawService.filters, Ev.setsockoptFdFrames 1,
          Ev.ioctl, Ev.bind, Ev.stderr Msg.perrorBind, Ev.close] ∧
      (RawService.main env).ret =
        some ((env.closeR.errnoAfter (env.perrorR.errnoAfter e) : Nat) : Int)) ∧
    (env.socketR.ret ≠ -1 →
      (env.filterR.ret = -1 ∨ env.fdFramesR.ret = -1 ∨ env.ioctlR.ret = -1 ∨
        env.bindR.ret = -1) →
      (RawService.main env).trace.count Ev.close = 1 ∧
      (RawService.main env).trace.getLast? = some Ev.close ∧
      Ev.read ∉ (RawService.main env).trace ∧
      Ev.stdout Msg.started ∉ (RawService.main env).trace ∧
      (RawService.main env).ret ≠ none) := by
  refine ⟨?_, ?_, ?_, ?_, ?_, ?_⟩
  · intro e h
    simp [RawService.main, h]
  · intro fd e h1 h2
    simp [RawService.main, RawService.errSetup, h1, h2]
  · intro fd v e h1 h2 h3
    simp [RawService.main, RawService.errSetup, h1, h2, h3]
  · intro fd v w e h1 h2 h3 h4
    simp [RawService.main, RawService.errSetup, h1, h2, h3, h4]
  · intro fd v w x e h1 h2 h3 h4 h5
    simp [RawService.main, RawService.errSetup, h1, h2, h3, h4, h5]
  · intro hs hf
    cases hsr : env.socketR with
    | fail e => simp [hsr] at hs
    | ok fd =>
      cases hfr : env.filterR with
      | fail e => simp [RawService.main, RawService.errSetup, hsr, hfr]
      | ok v =>
        cases hdr : env.fdFramesR with
        | fail e => simp [RawService.main, RawService.errSetup, hsr, hfr, hdr]
        | ok w =>
          cases hir : env.ioctlR with
          | fail e => simp [RawService.main, RawService.errSetup, hsr, hfr, hdr, hir]
          | ok x =>
            cases hbr : env.bindR with
            | fail e => simp [RawService.main, RawService.errSetup, hsr, hfr, hdr, hir, hbr]
            | ok y => simp [hfr, hdr, hir, hbr] at hf

/-- C6 on four runs: `ioctl` fails with `ENODEV` (19) for an unknown interface
and `perror` leaves `errno` alone (19 is returned); the same with a `perror`
that leaves `EINVAL` (22) in `errno` (22 is returned); `bind` fails with 19 and
the following `close` fails with `EIO` (5) (5 is returned); and `socket` itself
fails with `EAFNOSUPPORT` (97). -/
theorem C6_raw_service_open_releases_witness :
    ((RawService.main { rawServiceEnvExample with ioctlR := Sys.fail 19 }).trace =
        [Ev.signal SIGINT, Ev.signal SIGTERM, Ev.signal SIGQUIT, Ev.signal SIGHUP,
          Ev.socket, Ev.setsockoptFilter RawService.filters, Ev.setsockoptFdFrames 1,
          Ev.ioctl, Ev.stderr Msg.perrorIoctl, Ev.close] ∧
      (RawService.main { rawServiceEnvExample with ioctlR := Sys.fail 19 }).ret = some 19) ∧
    ((RawService.main
        { rawServiceEnvExample with ioctlR := Sys.fail 19, perrorR := Perror.sets 22 }).trace =
        [Ev.signal SIGINT, Ev.signal SIGTERM, Ev.signal SIGQUIT, Ev.signal SIGHUP,
          Ev.socket, Ev.setsockoptFilter RawService.filters, Ev.setsockoptFdFrames 1,
          Ev.ioctl, Ev.stderr Msg.perrorIoctl, Ev.close] ∧
      (RawService.main
        { rawServiceEnvExample with ioctlR := Sys.fail 19, perrorR := Perror.sets 22 }).ret =
        some 22) ∧
    ((RawService.main
        { rawServiceEnvExample with bindR := Sys.fail 19, closeR := Sys.fail 5 }).trace =
        [Ev.signal SIGINT, Ev.signal SIGTERM, Ev.signal SIGQUIT, Ev.signal SIGHUP,
          Ev.socket, Ev.setsockoptFilter RawService.filters, Ev.setsockoptFdFrames 1,
          Ev.ioctl, Ev.bind, Ev.stderr Msg.perrorBind, Ev.close] ∧
      (RawService.main
        { rawServiceEnvExample with bindR := Sys.fail 19, closeR := Sys.fail 5 }).ret =
        some 5) ∧
    ((RawService.main { rawServiceEnvExample with ioctlR := Sys.fail 19 }).trace.count Ev.close
        = 1 ∧
      (RawService.main { rawServiceEnvExample with ioctlR := Sys.fail 19 }).trace.getLast?
        = some Ev.close ∧
      Ev.read ∉ (RawService.main { rawServiceEnvExample with ioctlR := Sys.fail 19 }).trace ∧
      Ev.stdout Msg.started ∉
        (RawService.main { rawServiceEnvExample with ioctlR := Sys.fail 19 }).trace ∧
      (RawService.main { rawServiceEnvExample with ioctlR := Sys.fail 19 }).ret ≠ none) ∧
    ((RawService.main
        { rawServiceEnvExample with socketR := Sys.fail 97, perrorR := Perror.sets 22 }).trace =
        [Ev.signal SIGINT, Ev.signal SIGTERM, Ev.signal SIGQUIT, Ev.signal SIGHUP,
          Ev.socket, Ev.stderr Msg.perrorSocket] ∧
      (RawService.main
        { rawServiceEnvExample with socketR := Sys.fail 97, perrorR := Perror.sets 22 }).ret =
        some 22 ∧
      Ev.close ∉
        (RawService.main
          { rawServiceEnvExample with socketR := Sys.fail 97, perrorR := Perror.sets 22 }).trace) :=
  ⟨(C6_raw_service_open_releases
      { rawServiceEnvExample with ioctlR := Sys.fail 19 }).2.2.2.1 3 0 0 19 rfl rfl rfl rfl,
    (C6_raw_service_open_releases
      { rawServiceEnvExample with ioctlR := Sys.fail 19, perrorR := Perror.sets 22 }).2.2.2.1
      3 0 0 19 rfl rfl rfl rfl,
    (C6_raw_service_open_releases
      { rawServiceEnvExample with bindR := Sys.fail 19, closeR := Sys.fail 5 }).2.2.2.2.1
      3 0 0 0 19 rfl rfl rfl rfl rfl,
    (C6_raw_service_open_releases
      { rawServiceEnvExample with ioctlR := Sys.fail 19 }).2.2.2.2.2
      (by decide) (by decide),
    (C6_raw_service_open_releases
      { rawServiceEnvExample with socketR := Sys.fail 97, perrorR := Perror.sets 22 }).1 97 rfl⟩

/-! ## Exit paths of the three C demos -/

/-- C7 evaluated where it fails: `socket` succeeds and the `SIOCGIFINDEX`
`ioctl` fails with `ENODEV` (19). Each of the raw echo, broadcast-manager echo
and cyclic demos prints the diagnostic and returns 19 without calling `close`.
The same happens in the broadcast-manager echo demo when the `RX_SETUP` write
fails (here with `ENETDOWN`, 100), after `fcntl` has succeeded. -/
theorem C7_setup_failure_returns_without_close :
    RawEcho.main { rawEchoEnvExample with ioctlR := Sys.fail 19 } =
      { trace := [Ev.signal 2, Ev.signal 15, Ev.signal 17, Ev.socket, Ev.ioctl,
                  Ev.stderr Msg.perrorIoctl],
        ret := some 19, sigval := 0 } ∧
    Ev.close ∉ (RawEcho.main { rawEchoEnvExample with ioctlR := Sys.fail 19 }).trace ∧
    (BcmEcho.main 56 { bcmEnvExample with ioctlR := Sys.fail 19 }).trace =
      [Ev.signal 2, Ev.signal 15, Ev.signal 17, Ev.socket, Ev.ioctl,
        Ev.stderr Msg.perrorIoctl] ∧
    (BcmEcho.main 56 { bcmEnvExample with ioctlR := Sys.fail 19 }).ret = some 19 ∧
    Ev.close ∉ (BcmEcho.main 56 { bcmEnvExample with ioctlR := Sys.fail 19 }).trace ∧
    (Cyclic.main 56 { cyclicExample with ioctlR := Sys.fail 19 }).trace =
      [Ev.signal 2, Ev.signal 15, Ev.signal 17, Ev.socket, Ev.ioctl,
        Ev.stderr Msg.perrorIoctl] ∧
    (Cyclic.main 56 { cyclicExample with ioctlR := Sys.fail 19 }).ret = some 19 ∧
    Ev.close ∉ (Cyclic.main 56 { cyclicExample with ioctlR := Sys.fail 19 }).trace ∧
    (BcmEcho.main 56 { bcmEnvExample with setupWriteR := { nbytes := -1, errno := 100 } }).ret
      = some 100 ∧
    Ev.close ∉
      (BcmEcho.main 56
        { bcmEnvExample with setupWriteR := { nbytes := -1, errno := 100 } }).trace := by
  refine ⟨by decide, by decide, by decide, by decide, by decide, by decide, by decide,
    by decide, by decide, by decide⟩

/-! ## Reads that return less than a full frame or message -/

theorem rawEcho_body_short (it : RawEcho.Iter) (h : it.readR.nbytes < (CAN_MTU : Int)) :
    RawEcho.body it =
      if it.readR.nbytes < 0 then
        if it.readR.errno ≠ EAGAIN then [Ev.read, Ev.stderr Msg.perrorRead, Ev.usleep 10000]
        else [Ev.read, Ev.usleep 10000]
      else [Ev.read, Ev.stderr Msg.readIncomplete, Ev.usleep 10000] := by
  unfold RawEcho.body
  by_cases h1 : it.readR.nbytes < 0
  · simp only [h1, if_true]; rfl
  · simp only [h1, h, if_true, if_false]; rfl

theorem bcmEcho_body_short (mhsiz : Nat) (it : BcmEcho.Iter)
    (h : it.readR.nbytes < (sizeofCanMsg mhsiz BcmEcho.NFRAMES : Int)) :
    BcmEcho.body mhsiz it =
      if it.readR.nbytes < 0 then
        if it.readR.errno ≠ EAGAIN then [Ev.read, Ev.stderr Msg.perrorRead, Ev.usleep 10000]
        else [Ev.read, Ev.usleep 10000]
      else [Ev.read, Ev.stderr Msg.readIncomplete, Ev.usleep 10000] := by
  unfold BcmEcho.body
  by_cases h1 : it.readR.nbytes < 0
  · simp only [h1, if_true]; rfl
  · simp only [h1, h, if_true, if_false]; rfl

theorem shortReadTolerated_of_eq (nbytes : Int) (errno : Nat) (evs : List Ev)
    (h : evs =
      if nbytes < 0 then
        if errno ≠ EAGAIN then [Ev.read, Ev.stderr Msg.perrorRead, Ev.usleep 10000]
        else [Ev.read, Ev.usleep 10000]
      else [Ev.read, Ev.stderr Msg.readIncomplete, Ev.usleep 10000]) :
    ShortReadTolerated nbytes errno evs := by
  subst h
  unfold ShortReadTolerated
  by_cases h1 : nbytes < 0
  · have h1n : ¬ 0 ≤ nbytes := by omega
    by_cases h2 : errno = EAGAIN
    · simp [h1, h1n, h2, frameWrites, msgWrites, Ev.isStderr]
    · simp [h1, h1n, h2, frameWrites, msgWrites, Ev.isStderr]
  · have h1p : 0 ≤ nbytes := by omega
    simp [h1, h1p, frameWrites, msgWrites, Ev.isStderr]

/-- C8. Non-full reads are tolerated by the raw echo and broadcast-manager echo
loops: for every `read` result `nbytes` below the full size, the iteration
writes nothing, does not close the socket, waits the fixed 10000 us and hands
over to the next test of the loop condition; for `0 ≤ nbytes` it prints the
"incomplete" diagnostic, for `nbytes < 0` it prints `perror("read")` if and
only if `errno` is not `EAGAIN`. -/
theorem C8_short_reads_tolerated (mhsiz : Nat) (r : RawEcho.Iter) (b : BcmEcho.Iter) :
    (r.readR.nbytes < (CAN_MTU : Int) →
      ShortReadTolerated r.readR.nbytes r.readR.errno (RawEcho.body r) ∧
      ∀ c p e rest, (RawEcho.loop c p e 0 (r :: rest)).trace =
        RawEcho.body r ++
          (RawEcho.loop c p r.readR.errno (deliver r.sigs 0) rest).trace) ∧
    (b.readR.nbytes < (sizeofCanMsg mhsiz BcmEcho.NFRAMES : Int) →
      ShortReadTolerated b.readR.nbytes b.readR.errno (BcmEcho.body mhsiz b) ∧
      ∀ c p e rest, (BcmEcho.loop mhsiz c p e 0 (b :: rest)).trace =
        BcmEcho.body mhsiz b ++
          (BcmEcho.loop mhsiz c p b.readR.errno (deliver b.sigs 0) rest).trace) := by
  constructor
  · intro h
    refine ⟨shortReadTolerated_of_eq _ _ _ (rawEcho_body_short r h), ?_⟩
    intro c p e rest
    simp [RawEcho.loop, RawEcho.errnoAfter, h]
  · intro h
    refine ⟨shortReadTolerated_of_eq _ _ _ (bcmEcho_body_short mhsiz b h), ?_⟩
    intro c p e rest
    simp [BcmEcho.loop, BcmEcho.errnoAfter, h]

/-- C8 on the scenario of the specification, a read of 10 bytes where 16 are
expected, and on a read of the 56 header bytes where 72 are expected: the
events of the iteration, in full. -/
theorem C8_short_reads_tolerated_witness :
    RawEcho.body rawEchoShort =
        [Ev.read, Ev.stderr Msg.readIncomplete, Ev.usleep 10000] ∧
    BcmEcho.body 56 bcmEchoShort =
        [Ev.read, Ev.stderr Msg.readIncomplete, Ev.usleep 10000] ∧
    (ShortReadTolerated rawEchoShort.readR.nbytes rawEchoShort.readR.errno
        (RawEcho.body rawEchoShort) ∧
      ∀ c p e rest, (RawEcho.loop c p e 0 (rawEchoShort :: rest)).trace =
        RawEcho.body rawEchoShort ++
          (RawEcho.loop c p rawEchoShort.readR.errno (deliver rawEchoShort.sigs 0) rest).trace) ∧
    (ShortReadTolerated bcmEchoShort.readR.nbytes bcmEchoShort.readR.errno
        (BcmEcho.body 56 bcmEchoShort) ∧
      ∀ c p e rest, (BcmEcho.loop 56 c p e 0 (bcmEchoShort :: rest)).trace =
        BcmEcho.body 56 bcmEchoShort ++
          (BcmEcho.loop 56 c p bcmEchoShort.readR.errno
            (deliver bcmEchoShort.sigs 0) rest).trace) :=
  ⟨by decide, by decide,
    (C8_short_reads_tolerated 56 rawEchoShort bcmEchoShort).1 (by decide),
    (C8_short_reads_tolerated 56 rawEchoShort bcmEchoShort).2 (by decide)⟩

/-! ## Short reads in the raw service -/

/-- C9, as stated, fails: on a read of 10 bytes the iteration of the raw
service consists of the `read` alone; nothing is printed on either stream. -/
theorem C9_raw_service_truncation_counterexample :
    (0 : Int) ≤ rawServiceShort.readR.nbytes ∧
    rawServiceShort.readR.nbytes < (CAN_MTU : Int) ∧
    RawService.body true rawServiceShort = [Ev.read] ∧
    RawService.body false rawServiceShort = [Ev.read] ∧
    ¬ ∃ m, Ev.stderr m ∈ RawService.body true rawServiceShort ∨
           Ev.stdout m ∈ RawService.body true rawServiceShort := by
  refine ⟨by decide, by decide, by decide, by decide, ?_⟩
  rintro ⟨m, h | h⟩
  · have hb : RawService.body true rawServiceShort = [Ev.read] := by decide
    rw [hb] at h
    simp at h
  · have hb : RawService.body true rawServiceShort = [Ev.read] := by decide
    rw [hb] at h
    simp at h

/-- C9, amended. For every read of the raw service that returns a byte count
`n` with `0 ≤ n < CAN_MTU`, the iteration consists of the `read` alone: it
emits no diagnostic, does not call `processFrame`, does not sleep, and the loop
goes on with the next test of its condition. -/
theorem C9_raw_service_truncation_amended (le : Bool) (it : RawService.Iter)
    (h0 : 0 ≤ it.readR.nbytes) (h1 : it.readR.nbytes < (CAN_MTU : Int)) :
    RawService.body le it = [Ev.read] ∧
    (∀ m, Ev.stderr m ∉ RawService.body le it ∧ Ev.stdout m ∉ RawService.body le it) ∧
    (∀ f, Ev.processFrame f ∉ RawService.body le it) ∧
    (∀ ms, Ev.sleepMs ms ∉ RawService.body le it) ∧
    ∀ c p e rest, (RawService.loop le c p e 0 (it :: rest)).trace =
      RawService.body le it ++
        (RawService.loop le c p it.readR.errno (deliver it.sigs 0) rest).trace := by
  have hb : RawService.body le it = [Ev.read] := by
    have e1 : ¬ it.readR.nbytes = (CAN_MTU : Int) := by omega
    have e2 : ¬ it.readR.nbytes = (CANFD_MTU : Int) := by
      have : (CAN_MTU : Int) < (CANFD_MTU : Int) := by decide
      omega
    have e3 : ¬ it.readR.nbytes = -1 := by omega
    unfold RawService.body
    simp only [e1, e2, e3, if_false]
  refine ⟨hb, ?_, ?_, ?_, ?_⟩
  · intro m; rw [hb]; simp
  · intro f; rw [hb]; simp
  · intro ms; rw [hb]; simp
  · intro c p e rest
    simp [RawService.loop]

/-- C9, amended, on the read of 10 bytes. -/
theorem C9_raw_service_truncation_amended_witness :
    RawService.body true rawServiceShort = [Ev.read] ∧
    (∀ m, Ev.stderr m ∉ RawService.body true rawServiceShort ∧
          Ev.stdout m ∉ RawService.body true rawServiceShort) ∧
    (∀ f, Ev.processFrame f ∉ RawService.body true rawServiceShort) ∧
    (∀ ms, Ev.sleepMs ms ∉ RawService.body true rawServiceShort) ∧
    ∀ c p e rest, (RawService.loop true c p e 0 (rawServiceShort :: rest)).trace =
      RawService.body true rawServiceShort ++
        (RawService.loop true c p rawServiceShort.readR.errno
          (deliver rawServiceShort.sigs 0) rest).trace :=
  C9_raw_service_truncation_amended true rawServiceShort (by decide) (by decide)

/-! ## Headers of the messages read by the broadcast-manager echo demo -/

/-- C10, as stated, fails: a full-size message whose header has opcode 0xFF
and `nframes` 7 is answered like any other. The iteration writes a `TX_SEND`
and prints nothing on the error stream. -/
theorem C10_bcm_malformed_counterexample :
    bcmEchoMalformed.readR.buf.msg_head.opcode = 0xFF ∧
    bcmEchoMalformed.readR.buf.msg_head.nframes = 7 ∧
    BcmEcho.body 56 bcmEchoMalformed =
      [Ev.read,
        Ev.rx { can_id := 0x123, can_dlc := 3, data := [0x10, 0x20, 0x30, 0, 0, 0, 0, 0] },
        Ev.writeMsg { opcode := TX_SEND, flags := 0, count := 0, ival1 := ⟨0, 0⟩,
                      ival2 := ⟨0, 0⟩, can_id := 0, nframes := 1 }
          [{ can_id := 0x0BC, can_dlc := 3, data := [0x11, 0x21, 0x31, 0, 0, 0, 0, 0] }] 72,
        Ev.tx { can_id := 0x0BC, can_dlc := 3, data := [0x11, 0x21, 0x31, 0, 0, 0, 0, 0] }] ∧
    (BcmEcho.body 56 bcmEchoMalformed).filter Ev.isStderr = [] ∧
    (msgWrites (BcmEcho.body 56 bcmEchoMalformed)).map (fun w => w.1.opcode) = [TX_SEND] := by
  refine ⟨by decide, by decide, by decide, by decide, by decide⟩

/-- C10, amended. The broadcast-manager echo loop does not look at the header
it reads: for every full-size message read, the iteration writes one `TX_SEND`
with `nframes` 1, the same whatever the opcode and `nframes` of the header
read, and the only diagnostics it can print are those of that `write`
(failed or incomplete). -/
theorem C10_bcm_header_not_inspected (mhsiz : Nat) (it : BcmEcho.Iter)
    (hfull : (sizeofCanMsg mhsiz BcmEcho.NFRAMES : Int) ≤ it.readR.nbytes) :
    msgWrites (BcmEcho.body mhsiz it) =
      [((BcmEcho.echoMsg it.readR.buf).msg_head, [(BcmEcho.echoMsg it.readR.buf).frame],
        sizeofCanMsg mhsiz BcmEcho.NFRAMES)] ∧
    (BcmEcho.echoMsg it.readR.buf).msg_head.opcode = TX_SEND ∧
    (BcmEcho.echoMsg it.readR.buf).msg_head.nframes = 1 ∧
    (BcmEcho.body mhsiz it).filter Ev.isStderr =
      (if it.writeR.nbytes < 0 then [Ev.stderr Msg.perrorTxSend]
       else if it.writeR.nbytes < (sizeofCanMsg mhsiz BcmEcho.NFRAMES : Int) then
         [Ev.stderr Msg.writeIncomplete]
       else []) ∧
    ∀ op nf,
      BcmEcho.body mhsiz
        { it with readR := { it.readR with buf := { it.readR.buf with
            msg_head := { it.readR.buf.msg_head with opcode := op, nframes := nf } } } } =
      BcmEcho.body mhsiz it := by
  have h1 : ¬ it.readR.nbytes < 0 := by
    have : (0 : Int) ≤ (sizeofCanMsg mhsiz BcmEcho.NFRAMES : Int) := Int.natCast_nonneg _
    omega
  have h2 : ¬ it.readR.nbytes < (sizeofCanMsg mhsiz BcmEcho.NFRAMES : Int) := by omega
  refine ⟨?_, rfl, rfl, ?_, ?_⟩
  · rw [bcm_body_msgWrites, if_neg h2]
  · unfold BcmEcho.body
    simp only [h1, h2, if_false]
    split_ifs <;> rfl
  · intro op nf
    unfold BcmEcho.body
    simp only [h1, h2, if_false]
    split_ifs <;> rfl

/-- C10, amended, on the message with opcode 0xFF and `nframes` 7. -/
theorem C10_bcm_header_not_inspected_witness :
    msgWrites (BcmEcho.body 56 bcmEchoMalformed) =
      [((BcmEcho.echoMsg bcmEchoMalformed.readR.buf).msg_head,
        [(BcmEcho.echoMsg bcmEchoMalformed.readR.buf).frame],
        sizeofCanMsg 56 BcmEcho.NFRAMES)] ∧
    (BcmEcho.echoMsg bcmEchoMalformed.readR.buf).msg_head.opcode = TX_SEND ∧
    (BcmEcho.echoMsg bcmEchoMalformed.readR.buf).msg_head.nframes = 1 ∧
    (BcmEcho.body 56 bcmEchoMalformed).filter Ev.isStderr =
      (if bcmEchoMalformed.writeR.nbytes < 0 then [Ev.stderr Msg.perrorTxSend]
       else if bcmEchoMalformed.writeR.nbytes < (sizeofCanMsg 56 BcmEcho.NFRAMES : Int) then
         [Ev.stderr Msg.writeIncomplete]
       else []) ∧
    ∀ op nf,
      BcmEcho.body 56
        { bcmEchoMalformed with readR := { bcmEchoMalformed.readR with
            buf := { bcmEchoMalformed.readR.buf with
              msg_head := { bcmEchoMalformed.readR.buf.msg_head with
                opcode := op, nframes := nf } } } } =
      BcmEcho.body 56 bcmEchoMalformed :=
  C10_bcm_header_not_inspected 56 bcmEchoMalformed (by decide)

/-! ## The interface name handed to the kernel -/

theorem strncpyLoop_length (n i : Nat) (src dst : List Nat) :
    (strncpyLoop n i src dst).length = dst.length := by
  induction n generalizing i dst with
  | zero => rfl
  | succ n ih => simp [strncpyLoop, ih]

theorem strncpyLoop_getD (n i : Nat) (src dst : List Nat) (j : Nat) :
    (strncpyLoop n i src dst).getD j 0 =
      if i ≤ j ∧ j < i + n ∧ j < dst.length then src.getD j 0 else dst.getD j 0 := by
  induction n generalizing i dst with
  | zero =>
    have h : ¬ (i ≤ j ∧ j < i + 0 ∧ j < dst.length) := by omega
    rw [strncpyLoop, if_neg h]
  | succ n ih =>
    rw [strncpyLoop, ih, getD_set_byte, List.length_set]
    by_cases hij : i = j
    · subst hij
      by_cases hl : i < dst.length
      · simp [hl]
      · simp [hl]
    · by_cases h1 : i + 1 ≤ j
      · have h2 : i ≤ j := by omega
        have h3 : (j < i + 1 + n) = (j < i + (n + 1)) := by
          apply propext; constructor <;> intro h <;> omega
        simp [hij, h1, h2, h3]
      · have h2 : ¬ i ≤ j := by omega
        simp [hij, h1, h2]

theorem strncpy_ifr_name (ifrName0 iface : List Nat) (h : ifrName0.length = IFNAMSIZ) :
    (strncpy ifrName0 iface IFNAMSIZ).length = IFNAMSIZ ∧
    ∀ j, j < IFNAMSIZ → (strncpy ifrName0 iface IFNAMSIZ).getD j 0 = (cstr iface).getD j 0 := by
  refine ⟨by rw [strncpy, strncpyLoop_length, h], ?_⟩
  intro j hj
  have hc : 0 ≤ j ∧ j < 0 + IFNAMSIZ ∧ j < ifrName0.length := ⟨Nat.zero_le j, by omega, by omega⟩
  rw [strncpy, strncpyLoop_getD, if_pos hc]

/-- C11, as stated, fails: the lookup has no check of the name. For the name
`vcan0xxxxxxxxxxxxxxx` of 20 characters the `SIOCGIFINDEX` query is issued on
the buffer holding its first 16 bytes, and for the empty name on the buffer
of 16 NUL bytes; in both cases `main` goes on (no failure) when the `ioctl`
succeeds. This holds for the C demos and for the raw service. -/
theorem C11_interface_name_counterexample :
    longName.length = 20 ∧
    RawEcho.lookup (List.replicate 16 0xFF) longName (Sys.ok 0) Perror.keeps 0 =
      { ifr_name := [118, 99, 97, 110, 48, 120, 120, 120, 120, 120, 120, 120, 120, 120, 120, 120],
        trace := [Ev.ioctl], ret := none } ∧
    RawService.lookup (List.replicate 16 0xFF) longName (Sys.ok 0) (Sys.ok 0) Perror.keeps 0 =
      { ifr_name := [118, 99, 97, 110, 48, 120, 120, 120, 120, 120, 120, 120, 120, 120, 120, 120],
        trace := [Ev.ioctl], ret := none } ∧
    RawEcho.lookup (List.replicate 16 0xFF) [] (Sys.ok 0) Perror.keeps 0 =
      { ifr_name := List.replicate 16 0, trace := [Ev.ioctl], ret := none } ∧
    RawService.lookup (List.replicate 16 0xFF) [] (Sys.ok 0) (Sys.ok 0) Perror.keeps 0 =
      { ifr_name := List.replicate 16 0, trace := [Ev.ioctl], ret := none } := by
  refine ⟨by decide, by decide, by decide, by decide, by decide⟩

theorem rawEcho_lookup_ifr_name (ifrName0 iface : List Nat) (ioctlR : Sys) (p : Perror)
    (errno : Nat) :
    (RawEcho.lookup ifrName0 iface ioctlR p errno).ifr_name =
      strncpy ifrName0 iface IFNAMSIZ := by
  unfold RawEcho.lookup
  split_ifs <;> rfl

theorem rawEcho_lookup_head (ifrName0 iface : List Nat) (ioctlR : Sys) (p : Perror)
    (errno : Nat) :
    (RawEcho.lookup ifrName0 iface ioctlR p errno).trace.head? = some Ev.ioctl := by
  unfold RawEcho.lookup
  split_ifs <;> rfl

theorem rawEcho_lookup_ret_ok (ifrName0 iface : List Nat) (p : Perror) (v errno : Nat) :
    (RawEcho.lookup ifrName0 iface (Sys.ok v) p errno).ret = none := by
  simp [RawEcho.lookup]

theorem rawEcho_lookup_ret_fail (ifrName0 iface : List Nat) (p : Perror) (e errno : Nat) :
    (RawEcho.lookup ifrName0 iface (Sys.fail e) p errno).ret ≠ none := by
  simp [RawEcho.lookup]

theorem rawService_lookup_ifr_name (ifrName0 iface : List Nat) (ioctlR closeR : Sys)
    (p : Perror) (errno : Nat) :
    (RawService.lookup ifrName0 iface ioctlR closeR p errno).ifr_name =
      strncpy ifrName0 iface IFNAMSIZ := by
  unfold RawService.lookup
  split_ifs <;> rfl

theorem rawService_lookup_head (ifrName0 iface : List Nat) (ioctlR closeR : Sys)
    (p : Perror) (errno : Nat) :
    (RawService.lookup ifrName0 iface ioctlR closeR p errno).trace.head? = some Ev.ioctl := by
  unfold RawService.lookup
  split_ifs <;> rfl

theorem rawService_lookup_ret_ok (ifrName0 iface : List Nat) (closeR : Sys) (p : Perror)
    (v errno : Nat) :
    (RawService.lookup ifrName0 iface (Sys.ok v) closeR p errno).ret = none := by
  simp [RawService.lookup]

theorem rawService_lookup_ret_fail (ifrName0 iface : List Nat) (closeR : Sys) (p : Perror)
    (e errno : Nat) :
    (RawService.lookup ifrName0 iface (Sys.fail e) closeR p errno).ret ≠ none := by
  simp [RawService.lookup, RawService.errSetup]

theorem rawEcho_main_issues_ioctl (env : RawEcho.Env)
    (hreg : (registerSignals env.signalInt env.signalTerm env.signalChld env.errno0).2.1 = false)
    (hsock : 0 ≤ env.socketR.ret) : Ev.ioctl ∈ (RawEcho.main env).trace := by
  have hs : ¬ env.socketR.ret < 0 := by omega
  unfold RawEcho.main
  simp only [hreg, hs, if_false, Bool.false_eq_true]
  split_ifs <;> simp

theorem rawService_main_issues_ioctl (env : RawService.Env)
    (h1 : env.socketR.ret ≠ -1) (h2 : env.filterR.ret ≠ -1) (h3 : env.fdFramesR.ret ≠ -1) :
    Ev.ioctl ∈ (RawService.main env).trace := by
  have h1s : ¬ -1 = env.socketR.ret := fun h => h1 h.symm
  have h2s : ¬ -1 = env.filterR.ret := fun h => h2 h.symm
  have h3s : ¬ -1 = env.fdFramesR.ret := fun h => h3 h.symm
  unfold RawService.main
  simp only [h1s, h2s, h3s, if_false]
  split_ifs <;> simp

/-- When `main` of the raw echo demo returns at a failing `ioctl`, it returns
what the lookup returns. -/
theorem rawEcho_main_ret_eq_lookup (env : RawEcho.Env) (ifrName0 iface : List Nat) (e : Nat)
    (hreg : (registerSignals env.signalInt env.signalTerm env.signalChld env.errno0).2.1 = false)
    (hsock : 0 ≤ env.socketR.ret) (hioctl : env.ioctlR = Sys.fail e) :
    (RawEcho.main env).ret =
      (RawEcho.lookup ifrName0 iface env.ioctlR env.perrorR
        (registerSignals env.signalInt env.signalTerm env.signalChld env.errno0).2.2).ret := by
  have hs : ¬ env.socketR.ret < 0 := by omega
  simp [RawEcho.main, RawEcho.lookup, hreg, hs, hioctl]

/-- When `main` of the raw service returns at a failing `ioctl`, it returns
what the lookup returns. -/
theorem rawService_main_ret_eq_lookup (env : RawService.Env) (ifrName0 iface : List Nat)
    (fd v w e : Nat) (h1 : env.socketR = Sys.ok fd) (h2 : env.filterR = Sys.ok v)
    (h3 : env.fdFramesR = Sys.ok w) (hioctl : env.ioctlR = Sys.fail e) :
    (RawService.main env).ret =
      (RawService.lookup ifrName0 iface env.ioctlR env.closeR env.perrorR env.errno0).ret := by
  simp [RawService.main, RawService.lookup, RawService.errSetup, h1, h2, h3, hioctl]

/-- C11, amended. The demos do not validate the interface name. For every
name, the empty one and those longer than `IFNAMSIZ - 1` included, the lookup
issues the `SIOCGIFINDEX` query on the 16 byte buffer that holds the first
`IFNAMSIZ` bytes of the name, NUL-padded when the name is shorter. The lookup
fails (`main` returns there) if and only if that `ioctl` fails: when the
`ioctl` succeeds `main` goes on, whatever the name. In `main` the query is
issued whenever the steps before it have succeeded. -/
theorem C11_interface_name_not_validated (ifrName0 iface : List Nat) (ioctlR closeR : Sys)
    (perrorR : Perror) (errno : Nat) (renv : RawEcho.Env) (senv : RawService.Env)
    (hbuf : ifrName0.length = IFNAMSIZ) :
    ((RawEcho.lookup ifrName0 iface ioctlR perrorR errno).ifr_name.length = IFNAMSIZ ∧
      (∀ j, j < IFNAMSIZ →
        (RawEcho.lookup ifrName0 iface ioctlR perrorR errno).ifr_name.getD j 0 =
          (cstr iface).getD j 0) ∧
      (RawEcho.lookup ifrName0 iface ioctlR perrorR errno).trace.head? = some Ev.ioctl ∧
      (∀ v, ioctlR = Sys.ok v →
        (RawEcho.lookup ifrName0 iface ioctlR perrorR errno).ret = none) ∧
      (∀ e, ioctlR = Sys.fail e →
        (RawEcho.lookup ifrName0 iface ioctlR perrorR errno).ret ≠ none)) ∧
    ((RawService.lookup ifrName0 iface ioctlR closeR perrorR errno).ifr_name.length
        = IFNAMSIZ ∧
      (∀ j, j < IFNAMSIZ →
        (RawService.lookup ifrName0 iface ioctlR closeR perrorR errno).ifr_name.getD j 0 =
          (cstr iface).getD j 0) ∧
      (RawService.lookup ifrName0 iface ioctlR closeR perrorR errno).trace.head?
        = some Ev.ioctl ∧
      (∀ v, ioctlR = Sys.ok v →
        (RawService.lookup ifrName0 iface ioctlR closeR perrorR errno).ret = none) ∧
      (∀ e, ioctlR = Sys.fail e →
        (RawService.lookup ifrName0 iface ioctlR closeR perrorR errno).ret ≠ none)) ∧
    ((registerSignals renv.signalInt renv.signalTerm renv.signalChld renv.errno0).2.1 = false →
      0 ≤ renv.socketR.ret → Ev.ioctl ∈ (RawEcho.main renv).trace) ∧
    (senv.socketR.ret ≠ -1 → senv.filterR.ret ≠ -1 → senv.fdFramesR.ret ≠ -1 →
      Ev.ioctl ∈ (RawService.main senv).trace) := by
  have hname := strncpy_ifr_name ifrName0 iface hbuf
  refine ⟨⟨?_, ?_, rawEcho_lookup_head _ _ _ _ _, ?_, ?_⟩,
    ⟨?_, ?_, rawService_lookup_head _ _ _ _ _ _, ?_, ?_⟩,
    rawEcho_main_issues_ioctl renv, rawService_main_issues_ioctl senv⟩
  · rw [rawEcho_lookup_ifr_name]; exact hname.1
  · intro j hj; rw [rawEcho_lookup_ifr_name]; exact hname.2 j hj
  · intro v hv; rw [hv]; exact rawEcho_lookup_ret_ok _ _ _ _ _
  · intro e he; rw [he]; exact rawEcho_lookup_ret_fail _ _ _ _ _
  · rw [rawService_lookup_ifr_name]; exact hname.1
  · intro j hj; rw [rawService_lookup_ifr_name]; exact hname.2 j hj
  · intro v hv; rw [hv]; exact rawService_lookup_ret_ok _ _ _ _ _ _
  · intro e he; rw [he]; exact rawService_lookup_ret_fail _ _ _ _ _ _

/-- C11, amended, on the name of 20 characters with a buffer that starts
filled with 0xFF: the buffer queried has 16 bytes, the first 16 bytes of the
name; both programs go on after the query when the `ioctl` succeeds, and both
return when it fails with `ENODEV` (19), also when `perror` then changes
`errno` and `close` fails. -/
theorem C11_interface_name_not_validated_witness :
    (RawEcho.lookup (List.replicate 16 0xFF) longName (Sys.ok 0) Perror.keeps 0).ifr_name.length
      = IFNAMSIZ ∧
    (∀ j, j < IFNAMSIZ →
      (RawEcho.lookup (List.replicate 16 0xFF) longName (Sys.ok 0) Perror.keeps 0).ifr_name.getD
          j 0 =
        (cstr longName).getD j 0) ∧
    (RawEcho.lookup (List.replicate 16 0xFF) longName (Sys.ok 0) Perror.keeps 0).trace.head?
      = some Ev.ioctl ∧
    (RawEcho.lookup (List.replicate 16 0xFF) longName (Sys.ok 0) Perror.keeps 0).ret = none ∧
    (RawService.lookup (List.replicate 16 0xFF) longName (Sys.ok 0) (Sys.ok 0)
        Perror.keeps 0).ret = none ∧
    (RawEcho.lookup (List.replicate 16 0xFF) longName (Sys.fail 19)
        (Perror.sets 22) 0).ret ≠ none ∧
    (RawService.lookup (List.replicate 16 0xFF) longName (Sys.fail 19) (Sys.fail 5)
        (Perror.sets 22) 0).ret ≠ none ∧
    (RawService.lookup (List.replicate 16 0xFF) longName (Sys.fail 19) (Sys.fail 5)
        (Perror.sets 22) 0).trace.head? = some Ev.ioctl ∧
    Ev.ioctl ∈ (RawEcho.main rawEchoEnvExample).trace ∧
    Ev.ioctl ∈ (RawService.main rawServiceEnvExample).trace :=
  ⟨(C11_interface_name_not_validated (List.replicate 16 0xFF) longName (Sys.ok 0) (Sys.ok 0)
      Perror.keeps 0 rawEchoEnvExample rawServiceEnvExample (by decide)).1.1,
    (C11_interface_name_not_validated (List.replicate 16 0xFF) longName (Sys.ok 0) (Sys.ok 0)
      Perror.keeps 0 rawEchoEnvExample rawServiceEnvExample (by decide)).1.2.1,
    (C11_interface_name_not_validated (List.replicate 16 0xFF) longName (Sys.ok 0) (Sys.ok 0)
      Perror.keeps 0 rawEchoEnvExample rawServiceEnvExample (by decide)).1.2.2.1,
    (C11_interface_name_not_validated (List.replicate 16 0xFF) longName (Sys.ok 0) (Sys.ok 0)
      Perror.keeps 0 rawEchoEnvExample rawServiceEnvExample (by decide)).1.2.2.2.1 0 rfl,
    (C11_interface_name_not_validated (List.replicate 16 0xFF) longName (Sys.ok 0) (Sys.ok 0)
      Perror.keeps 0 rawEchoEnvExample rawServiceEnvExample (by decide)).2.1.2.2.2.1 0 rfl,
    (C11_interface_name_not_validated (List.replicate 16 0xFF) longName (Sys.fail 19)
      (Sys.fail 5) (Perror.sets 22) 0 rawEchoEnvExample rawServiceEnvExample
      (by decide)).1.2.2.2.2 19 rfl,
    (C11_interface_name_not_validated (List.replicate 16 0xFF) longName (Sys.fail 19)
      (Sys.fail 5) (Perror.sets 22) 0 rawEchoEnvExample rawServiceEnvExample
      (by decide)).2.1.2.2.2.2 19 rfl,
    (C11_interface_name_not_validated (List.replicate 16 0xFF) longName (Sys.fail 19)
      (Sys.fail 5) (Perror.sets 22) 0 rawEchoEnvExample rawServiceEnvExample
      (by decide)).2.1.2.2.1,
    (C11_interface_name_not_validated (List.replicate 16 0xFF) longName (Sys.ok 0) (Sys.ok 0)
      Perror.keeps 0 rawEchoEnvExample rawServiceEnvExample (by decide)).2.2.1
      (by decide) (by decide),
    (C11_interface_name_not_validated (List.replicate 16 0xFF) longName (Sys.ok 0) (Sys.ok 0)
      Perror.keeps 0 rawEchoEnvExample rawServiceEnvExample (by decide)).2.2.2
      (by decide) (by decide) (by decide)⟩

/-! ## What `processFrame` reads -/

/-- C12 evaluated where it fails: two frames with `can_id` 0x0A0 and `len` 1
that agree on the identifier, on `len` and on the one byte below `len`, and
differ only in the byte at index 1. `processFrame` reads bytes 0 and 1 whatever
`len` is, and reports 0x1200 = 4608 for one and 0x1234 = 4660 for the other. -/
theorem C12_processFrame_reads_beyond_len :
    (engineFrameShort 0x00).can_id = (engineFrameShort 0x34).can_id ∧
    (engineFrameShort 0x00).len = 1 ∧ (engineFrameShort 0x34).len = 1 ∧
    (∀ i, i < 1 → (engineFrameShort 0x00).data.getD i 0 = (engineFrameShort 0x34).data.getD i 0) ∧
    RawService.processFrame true (engineFrameShort 0x00) = [Ev.stdout (Msg.rpm 4608)] ∧
    RawService.processFrame true (engineFrameShort 0x34) = [Ev.stdout (Msg.rpm 4660)] ∧
    RawService.processFrame false (engineFrameShort 0x00) = [Ev.stdout (Msg.rpm 4608)] ∧
    RawService.processFrame false (engineFrameShort 0x34) = [Ev.stdout (Msg.rpm 4660)] ∧
    RawService.processFrame true (engineFrameShort 0x00) ≠
      RawService.processFrame true (engineFrameShort 0x34) := by
  refine ⟨by decide, by decide, by decide, ?_, by decide, by decide, by decide, by decide,
    by decide⟩
  intro i hi
  have h0 : i = 0 := by omega
  subst h0
  decide

/-! ## Receive filters and the default branch of `processFrame` -/

/-- C13 evaluated where it fails: a remote-transmission request for the
standard identifier 0x0A0 (`can_id` 0x400000A0) and an extended frame with
identifier 0x8A0 (`can_id` 0x800008A0) are admitted by the filter set the
program installs, whose masks `CAN_SFF_MASK` compare the low 11 bits only;
`processFrame` switches on the whole `can_id` and takes the default branch,
printing "Unexpected CAN ID". -/
theorem C13_admitted_frame_reaches_default_branch :
    RawService.filters = [(0x0A0, 0x7FF), (0x110, 0x7FF), (0x320, 0x7FF)] ∧
    rtrEngineFrame.can_id = 0x0A0 ||| CAN_RTR_FLAG ∧
    ((rtrEngineFrame.can_id ^^^ 0x0A0) &&& CAN_SFF_MASK) = 0 ∧
    admitted RawService.filters rtrEngineFrame.can_id = true ∧
    RawService.processFrame true rtrEngineFrame =
      [Ev.stderr (Msg.unexpectedId 0x400000A0)] ∧
    RawService.processFrame false rtrEngineFrame =
      [Ev.stderr (Msg.unexpectedId 0x400000A0)] ∧
    effEngineFrame.can_id = 0x8A0 ||| CAN_EFF_FLAG ∧
    admitted RawService.filters effEngineFrame.can_id = true ∧
    RawService.processFrame true effEngineFrame =
      [Ev.stderr (Msg.unexpectedId 0x800008A0)] ∧
    RawService.body true
        { readR := { nbytes := 16, errno := 0, buf := rtrEngineFrame }, sigs := [] } =
      [Ev.read, Ev.processFrame rtrEngineFrame, Ev.stderr (Msg.unexpectedId 0x400000A0)] := by
  refine ⟨by decide, by decide, by decide, by decide, by decide, by decide, by decide,
    by decide, by decide, by decide⟩

/-! ## The engine speed -/

/-- C14. Engine speed is decoded big-endian independently of the host: for
every frame with `can_id` 0x0A0 whose first two data bytes are `b0` and `b1`,
`processFrame` reports the RPM value `256 * b0 + b1`, on a little-endian host
and on a big-endian host alike. -/
theorem C14_engine_speed_big_endian (hostLittleEndian : Bool) (frame : canfd_frame)
    (hid : frame.can_id = 0x0A0)
    (h0 : frame.data.getD 0 0 < 256) (h1 : frame.data.getD 1 0 < 256) :
    RawService.processFrame hostLittleEndian frame =
      [Ev.stdout (Msg.rpm (256 * frame.data.getD 0 0 + frame.data.getD 1 0))] ∧
    RawService.be16toh hostLittleEndian
        (RawService.load16 hostLittleEndian (frame.data.getD 0 0) (frame.data.getD 1 0)) =
      256 * frame.data.getD 0 0 + frame.data.getD 1 0 := by
  have hval : RawService.be16toh hostLittleEndian
        (RawService.load16 hostLittleEndian (frame.data.getD 0 0) (frame.data.getD 1 0)) =
      256 * frame.data.getD 0 0 + frame.data.getD 1 0 := by
    cases hostLittleEndian
    · simp only [RawService.be16toh, RawService.load16, Bool.false_eq_true, if_false]
      omega
    · simp only [RawService.be16toh, RawService.load16, if_true]
      omega
  refine ⟨?_, hval⟩
  unfold RawService.processFrame
  simp only [hid, if_true]
  rw [hval]

/-- C14 on the frame with payload `12 34`: 0x1234 = 4660 on both kinds of
host, where the native loads are 0x3412 and 0x1234. -/
theorem C14_engine_speed_big_endian_witness :
    RawService.load16 true 0x12 0x34 = 0x3412 ∧
    RawService.load16 false 0x12 0x34 = 0x1234 ∧
    RawService.processFrame true engineFrame = [Ev.stdout (Msg.rpm 4660)] ∧
    RawService.processFrame false engineFrame = [Ev.stdout (Msg.rpm 4660)] ∧
    (RawService.processFrame true engineFrame =
        [Ev.stdout (Msg.rpm (256 * engineFrame.data.getD 0 0 + engineFrame.data.getD 1 0))] ∧
      RawService.be16toh true
          (RawService.load16 true (engineFrame.data.getD 0 0) (engineFrame.data.getD 1 0)) =
        256 * engineFrame.data.getD 0 0 + engineFrame.data.getD 1 0) ∧
    (RawService.processFrame false engineFrame =
        [Ev.stdout (Msg.rpm (256 * engineFrame.data.getD 0 0 + engineFrame.data.getD 1 0))] ∧
      RawService.be16toh false
          (RawService.load16 false (engineFrame.data.getD 0 0) (engineFrame.data.getD 1 0)) =
        256 * engineFrame.data.getD 0 0 + engineFrame.data.getD 1 0) :=
  ⟨by decide, by decide, by decide, by decide,
    C14_engine_speed_big_endian true engineFrame (by decide) (by decide) (by decide),
    C14_engine_speed_big_endian false engineFrame (by decide) (by decide) (by decide)⟩

/-! ## Header fields left unassigned -/

/-- C15 evaluated where it fails: two runs of each demo in which every call
has the same outcome and only the initial content of the local `msg` differs
(header filled with 0xFF, or with zeros). The cyclic demo never assigns
`ival1`, and the echo demo assigns none of `count`, `ival1`, `ival2` before its
`RX_SETUP`: the headers written carry the initial content in those fields and
differ between the two runs. -/
theorem C15_written_headers_depend_on_initial_msg :
    (msgWrites (Cyclic.main 56 cyclicExample).trace).map (fun w => w.1) =
      [{ opcode := TX_SETUP, flags := 3, count := 0, ival1 := ⟨0xFF, 0xFF⟩,
         ival2 := ⟨1, 200000⟩, can_id := 0, nframes := 4 }] ∧
    (msgWrites (Cyclic.main 56 cyclicExampleZeroed).trace).map (fun w => w.1) =
      [{ opcode := TX_SETUP, flags := 3, count := 0, ival1 := ⟨0, 0⟩,
         ival2 := ⟨1, 200000⟩, can_id := 0, nframes := 4 }] ∧
    (msgWrites (Cyclic.main 56 cyclicExample).trace).map (fun w => w.1) ≠
      (msgWrites (Cyclic.main 56 cyclicExampleZeroed).trace).map (fun w => w.1) ∧
    ((msgWrites (BcmEcho.main 56 bcmEnvExample).trace).map (fun w => w.1)).head? =
      some { opcode := RX_SETUP, flags := 0, count := 0xFF, ival1 := ⟨0xFF, 0xFF⟩,
             ival2 := ⟨0xFF, 0xFF⟩, can_id := 0x123, nframes := 0 } ∧
    ((msgWrites (BcmEcho.main 56 bcmEnvExampleZeroed).trace).map (fun w => w.1)).head? =
      some { opcode := RX_SETUP, flags := 0, count := 0, ival1 := ⟨0, 0⟩,
             ival2 := ⟨0, 0⟩, can_id := 0x123, nframes := 0 } ∧
    ((msgWrites (BcmEcho.main 56 bcmEnvExample).trace).map (fun w => w.1)).head? ≠
      ((msgWrites (BcmEcho.main 56 bcmEnvExampleZeroed).trace).map (fun w => w.1)).head? ∧
    { cyclicExampleZeroed with msg0 := cyclicExample.msg0 } = cyclicExample ∧
    { bcmEnvExampleZeroed with msg0 := bcmEnvExample.msg0 } = bcmEnvExample := by
  refine ⟨by decide, by decide, by decide, by decide, by decide, by decide, by decide,
    by decide⟩

end SocketCan
